import Mathlib

/-!
Blynk: the one-second scheduler of `Controller`.

A shallow embedding of `src/blynk/controller.cpp`: the timer slot
`Controller::onApplicationTimerTimeOut`, the two `enter…Mode` helpers, the menu
slot `Controller::onActionTriggered` and the constructor / `startGUI` pair.

Conventions of the embedding.

* C++ `int` counters and parameters are `Int`.  The counters only grow by one
  per second, so the model is the code in the range where no signed overflow
  happens (about 68 years of ticks).
* `a % b` on `int` is truncated remainder, `Int.tmod`; `b = 0` is undefined
  behaviour in C++ and is the one fault of the model (`Fault.moduloByZero`).
* Calls on the dimmer widget and `setParameter` calls are collected, in program
  order, in a list of `Effect`s.
* What the slot obtains from outside the controller (wall clock, random
  generator, the enum constant `NO_STRENGTH`) is passed in a `Host` record.
-/

namespace Blynk

/-! ## Constants of `controller.cpp` -/

/-- The preprocessor constant `ONE_HOUR` (controller.cpp line 21). -/
def ONE_HOUR : Int := 3600

/-- The preprocessor constant `THREE_HOURS` (controller.cpp line 22). -/
def THREE_HOURS : Int := 10800

/-- The preprocessor constant `ONE_DAY` (controller.cpp line 23). -/
def ONE_DAY : Int := 86400

/-! ## Data model -/

/-- Modelled from the spec: the values of the `SCREEN_BREAK_STATE` parameter.  The
constants `SCREEN_BREAK_ENABLED`, … that `controller.cpp` compares against come
from `blynk.h`, which is not among the sources; the spec lists these four
values and says exactly one of them is active at a time. -/
inductive ScreenBreakState
  | SCREEN_BREAK_ENABLED
  | SCREEN_BREAK_DISABLED_FOR_ONE_HOUR
  | SCREEN_BREAK_DISABLED_FOR_THREE_HOURS
  | SCREEN_BREAK_DISABLED_UNTIL_TOMORROW
  deriving DecidableEq, Repr

open ScreenBreakState

/-- Modelled from the spec: the parameter store `Parameters` (declared in
`parameters.h`, not among the sources), restricted to the keys that
`controller.cpp` reads.  Each field holds the value as the controller reads it:
`parameter(k).toInt()` for the integer keys, the string itself for
`SCREEN_BREAK_STATE`, and for `BLUE_LIGHT_REDUCER_START_TIME` the milliseconds
since midnight of `QTime::fromString(…)` (`-1` for an invalid time, which is how
`QTime` orders it). -/
structure Parameters where
  BLYNK_CURSOR_ENABLED : Int
  BLYNK_CURSOR_RANDOM_MODE : Int
  BLYNK_PER_MINUTE_RANDOM : Int
  BLYNK_CURSOR_REGULARITY : Int
  SCREEN_BREAK_STATE : ScreenBreakState
  SCREEN_BREAK_REGULARITY : Int
  SCREEN_BREAK_STRENGTH : Int
  BLUE_LIGHT_REDUCER_ENABLED : Int
  BLUE_LIGHT_REDUCER_START_TIME : Int
  BLUE_LIGHT_REDUCER_STRENGTH : Int
  deriving DecidableEq, Repr

/-- The members of `Controller` that the scheduler uses (constructor,
controller.cpp lines 26-38).  The tray icon, menus and dialogs are left out. -/
structure Controller where
  m_pParameters : Parameters
  m_iBlynkCursorElapsedTime : Int
  m_iScreenBreakElapsedTime : Int
  m_iBlueLightReducerElapsedTime : Int
  m_bBlynkCursorRandomModeOn : Bool
  m_iDelay : Int
  m_lBlynkCursorSequence : List Int
  deriving DecidableEq, Repr

/-- What one run of a slot obtains from outside the controller.

* `NO_STRENGTH` is the enumerator `Parameters::NO_STRENGTH`; its numeric value
  is in `parameters.h`, not among the sources, and is left open.
* `currentTime` is `QTime::currentTime()` in milliseconds since midnight.
* `randomSequence k count lo hi` is the result of the `k`-th call (counted from
  0 inside this slot run) of `Utils::randomSequence(count, lo, hi)`; `utils.h`
  is not among the sources and nothing is assumed about the generator. -/
structure Host where
  NO_STRENGTH : Int
  currentTime : Int
  randomSequence : Nat → Int → Int → Int → List Int

/-- Calls made by the controller on its collaborators, in program order. -/
inductive Effect
  | playCursor
  | playBigEye (eStrength : Int)
  | setStrength (eStrength : Int)
  | setParameter (sScreenBreakState : ScreenBreakState)
  deriving DecidableEq, Repr

/-- The only way a tick can go wrong: an `int` remainder with divisor zero. -/
inductive Fault
  | moduloByZero
  deriving DecidableEq, Repr

deriving instance DecidableEq for Except

/-- The cast `(bool)x.toInt()`. -/
def toBool (x : Int) : Bool := x != 0

/-- C++ `a % b` on `int`: undefined for `b == 0`, truncated remainder otherwise. -/
def cppMod (a b : Int) : Except Fault Int :=
  if b = 0 then .error .moduloByZero else .ok (a.tmod b)

/-- `Parameters::setParameter(Parameters::SCREEN_BREAK_STATE, v)`. -/
def setScreenBreakState (v : ScreenBreakState) (p : Parameters) : Parameters :=
  { p with SCREEN_BREAK_STATE := v }

/-! ## The `enter…Mode` helpers (controller.cpp lines 305-321)

Stopping and restarting the `QTimer` only moves the phase of the next timeout
in real time and has no counterpart in the model. -/

/-- `Controller::enterBlynkCursorRandomMode`; `k` numbers the generator call. -/
def enterBlynkCursorRandomMode (h : Host) (k : Nat) (c : Controller) : Controller :=
  { c with
    m_iBlynkCursorElapsedTime := 0
    m_lBlynkCursorSequence :=
      h.randomSequence k c.m_pParameters.BLYNK_PER_MINUTE_RANDOM 5 50 }

/-- `Controller::enterBlynCursorRegularMode`. -/
def enterBlynCursorRegularMode (c : Controller) : Controller :=
  { c with m_iBlynkCursorElapsedTime := 0 }

/-! ## `Controller::onApplicationTimerTimeOut` (controller.cpp lines 324-417) -/

/-- Lines 328-335: the comparison of the remembered random-mode flag with the
parameter, and the re-initialisation when they differ. -/
def checkRandomMode (h : Host) (bBlynkCursorRandomMode : Bool) (c : Controller) :
    Controller :=
  if c.m_bBlynkCursorRandomModeOn != bBlynkCursorRandomMode then
    let c1 :=
      if bBlynkCursorRandomMode then enterBlynkCursorRandomMode h 0 c
      else enterBlynCursorRegularMode c
    { c1 with m_bBlynkCursorRandomModeOn := bBlynkCursorRandomMode }
  else c

/-- Lines 340-342: the expiry test of the disable countdown. -/
def readScreenBreakState (c : Controller) : Controller × List Effect :=
  if c.m_iDelay > 0 ∧ c.m_iScreenBreakElapsedTime > c.m_iDelay then
    ({ c with m_pParameters := setScreenBreakState SCREEN_BREAK_ENABLED c.m_pParameters },
      [Effect.setParameter SCREEN_BREAK_ENABLED])
  else (c, [])

/-- Lines 349-382, the block under the comment `Blynk cursor only`. -/
def blynkCursorOnly (h : Host) (bBlynkCursorEnabled bBlynkCursorRandomMode : Bool)
    (c : Controller) : Except Fault (Controller × List Effect) :=
  if c.m_iBlynkCursorElapsedTime > 0 then
    if bBlynkCursorEnabled then
      if !bBlynkCursorRandomMode then
        let iBlynkCursorRegularity := c.m_pParameters.BLYNK_CURSOR_REGULARITY
        do
          let r ← cppMod c.m_iBlynkCursorElapsedTime iBlynkCursorRegularity
          if r = 0 then pure (c, [Effect.playCursor]) else pure (c, [])
      else
        match c.m_lBlynkCursorSequence with
        | [] => pure (c, [])
        | first :: rest => do
          let r ← cppMod c.m_iBlynkCursorElapsedTime first
          if r = 0 then
            -- playCursor, takeFirst, and the refill when the list got empty
            let iBlynkPerMinuteRandom := c.m_pParameters.BLYNK_PER_MINUTE_RANDOM
            let l :=
              if rest.isEmpty then h.randomSequence 1 iBlynkPerMinuteRandom 5 50 else rest
            pure ({ c with m_lBlynkCursorSequence := l }, [Effect.playCursor])
          else pure (c, [])
    else pure (c, [])
  else pure (c, [])

/-- Lines 384-395, the block under the comment `Screen break`. -/
def screenBreak (bScreenBreakEnabled : Bool) (c : Controller) :
    Except Fault (List Effect) :=
  if bScreenBreakEnabled && decide (c.m_iScreenBreakElapsedTime > 0) then
    let iScreenBreakRegularity := c.m_pParameters.SCREEN_BREAK_REGULARITY
    let eScreenBreakStrength := c.m_pParameters.SCREEN_BREAK_STRENGTH
    do
      let r ← cppMod c.m_iScreenBreakElapsedTime iScreenBreakRegularity
      if r = 0 then pure [Effect.playBigEye eScreenBreakStrength] else pure []
  else pure []

/-- Lines 397-412, the block under the comment `Blue light reducer`. -/
def blueLightReducer (h : Host) (bBlueLightReducerEnabled : Bool) (c : Controller) :
    List Effect :=
  if c.m_iBlueLightReducerElapsedTime > 0 then
    if bBlueLightReducerEnabled then
      let tTriggerTime := c.m_pParameters.BLUE_LIGHT_REDUCER_START_TIME
      let eBlueLightReducerStrength := c.m_pParameters.BLUE_LIGHT_REDUCER_STRENGTH
      if h.currentTime < tTriggerTime then [Effect.setStrength h.NO_STRENGTH]
      else [Effect.setStrength eBlueLightReducerStrength]
    else [Effect.setStrength h.NO_STRENGTH]
  else []

/-- Lines 414-416: the three increments that end the slot. -/
def incrementElapsed (c : Controller) : Controller :=
  { c with
    m_iBlynkCursorElapsedTime := c.m_iBlynkCursorElapsedTime + 1
    m_iScreenBreakElapsedTime := c.m_iScreenBreakElapsedTime + 1
    m_iBlueLightReducerElapsedTime := c.m_iBlueLightReducerElapsedTime + 1 }

/-- `Controller::onApplicationTimerTimeOut`: one tick.  The result is the
controller after the tick and the calls it made, or the fault it ran into. -/
def onApplicationTimerTimeOut (h : Host) (c : Controller) :
    Except Fault (Controller × List Effect) :=
  let bBlynkCursorEnabled := toBool c.m_pParameters.BLYNK_CURSOR_ENABLED
  let bBlynkCursorRandomMode := toBool c.m_pParameters.BLYNK_CURSOR_RANDOM_MODE
  let c1 := checkRandomMode h bBlynkCursorRandomMode c
  let sScreenBreakState := c1.m_pParameters.SCREEN_BREAK_STATE
  let bScreenBreakEnabled := decide (sScreenBreakState = SCREEN_BREAK_ENABLED)
  let r2 := readScreenBreakState c1
  let c2 := r2.1
  let bScreenBreakEnabled :=
    bScreenBreakEnabled && decide (c2.m_iScreenBreakElapsedTime ≥ c2.m_iDelay)
  let bBlueLightReducerEnabled := toBool c2.m_pParameters.BLUE_LIGHT_REDUCER_ENABLED
  do
    let r3 ← blynkCursorOnly h bBlynkCursorEnabled bBlynkCursorRandomMode c2
    let c3 := r3.1
    let e4 ← screenBreak bScreenBreakEnabled c3
    let e5 := blueLightReducer h bBlueLightReducerEnabled c3
    pure (incrementElapsed c3, r2.2 ++ r3.2 ++ e4 ++ e5)

/-! ## `Controller::onActionTriggered` (controller.cpp lines 223-283) -/

/-- The object names the slot dispatches on.  `preferences edit` carries what the
modal dialog did to the parameter store while it was open. -/
inductive Action
  | preferences (edit : Parameters → Parameters)
  | screenBreakDisabledForOneHour
  | screenBreakDisabledForThreeHours
  | screenBreakDisabledUntilTomorrow
  | quitBlynk

/-- `Controller::onActionTriggered`.  Saving the parameter file and quitting the
application leave the scheduler members as they are. -/
def onActionTriggered (h : Host) (a : Action) (c : Controller) : Controller :=
  match a with
  | .preferences edit =>
    let c := { c with m_pParameters := edit c.m_pParameters }
    let bBlynkCursorEnabled := toBool c.m_pParameters.BLYNK_CURSOR_ENABLED
    let bBlynkCursorRandomMode := toBool c.m_pParameters.BLYNK_CURSOR_RANDOM_MODE
    if bBlynkCursorEnabled then
      if bBlynkCursorRandomMode then enterBlynkCursorRandomMode h 0 c
      else enterBlynCursorRegularMode c
    else c
  | .screenBreakDisabledForOneHour =>
    { c with
      m_iDelay := ONE_HOUR
      m_pParameters := setScreenBreakState SCREEN_BREAK_DISABLED_FOR_ONE_HOUR c.m_pParameters
      m_iScreenBreakElapsedTime := 0 }
  | .screenBreakDisabledForThreeHours =>
    { c with
      m_iDelay := THREE_HOURS
      m_pParameters := setScreenBreakState SCREEN_BREAK_DISABLED_FOR_THREE_HOURS c.m_pParameters
      m_iScreenBreakElapsedTime := 0 }
  | .screenBreakDisabledUntilTomorrow =>
    { c with
      m_iDelay := ONE_DAY
      m_pParameters := setScreenBreakState SCREEN_BREAK_DISABLED_UNTIL_TOMORROW c.m_pParameters
      m_iScreenBreakElapsedTime := 0 }
  | .quitBlynk => c

/-! ## Runs of ticks -/

/-- One timer period seen from outside: the writes made to the shared parameter
store since the previous timeout (by the dialog or the dimmer widget, both of
which hold the same `Parameters` object), then the timeout with its host data. -/
structure Period where
  edit : Parameters → Parameters
  host : Host

/-- The store writes of the period, followed by the tick. -/
def step (c : Controller) (t : Period) : Except Fault (Controller × List Effect) :=
  onApplicationTimerTimeOut t.host { c with m_pParameters := t.edit c.m_pParameters }

/-- Consecutive periods; the run stops at the first fault. -/
def runTicks : Controller → List Period → Except Fault Controller
  | c, [] => .ok c
  | c, t :: ts =>
    match step c t with
    | .ok r => runTicks r.1 ts
    | .error f => .error f

/-! ## Start-up (controller.cpp lines 26-38, 160-182, 285-295) -/

/-- The constructor: all counters zero, the remembered flag off, no countdown, an
empty sequence.  `p` is the freshly constructed `Parameters` object; the default
values it carries are in `parameters.cpp`, not among the sources. -/
def construct (p : Parameters) : Controller :=
  { m_pParameters := p
    m_iBlynkCursorElapsedTime := 0
    m_iScreenBreakElapsedTime := 0
    m_iBlueLightReducerElapsedTime := 0
    m_bBlynkCursorRandomModeOn := false
    m_iDelay := 0
    m_lBlynkCursorSequence := [] }

/-- `Controller::loadParameters`: `file` is the deserialised parameter file when
it exists. -/
def loadParameters (file : Option Parameters) (c : Controller) : Controller :=
  match file with
  | none => c
  | some p =>
    { c with
      m_pParameters := p
      m_bBlynkCursorRandomModeOn := toBool p.BLYNK_CURSOR_RANDOM_MODE }

/-- `Controller::startGUI`, the part that touches the scheduler members. -/
def startGUI (h : Host) (c : Controller) : Controller :=
  let bBlynkCursorRandomMode := toBool c.m_pParameters.BLYNK_CURSOR_RANDOM_MODE
  if bBlynkCursorRandomMode then enterBlynkCursorRandomMode h 0 c
  else enterBlynCursorRegularMode c

/-- `Controller::startup` up to the start of the timer. -/
def startup (h : Host) (p : Parameters) (file : Option Parameters) : Controller :=
  startGUI h (loadParameters file (construct p))

/-! ## Vocabulary of the specification -/

/-- The schema invariant of the specification, as far as remainders are
concerned: both regularities read as non-zero integers and no pending blink
offset is zero. -/
def NonZeroDivisors (c : Controller) : Prop :=
  c.m_pParameters.BLYNK_CURSOR_REGULARITY ≠ 0 ∧
  c.m_pParameters.SCREEN_BREAK_REGULARITY ≠ 0 ∧
  ∀ x ∈ c.m_lBlynkCursorSequence, x ≠ 0

instance (c : Controller) : Decidable (NonZeroDivisors c) := by
  unfold NonZeroDivisors; infer_instance

/-- The specification's `Active = (state == ENABLED) AND (elapsed-since-disable ≥
delay)`, evaluated on the controller at the start of a tick. -/
def screenBreakActive (c : Controller) : Bool :=
  decide (c.m_pParameters.SCREEN_BREAK_STATE = SCREEN_BREAK_ENABLED) &&
    decide (c.m_iScreenBreakElapsedTime ≥ c.m_iDelay)

/-- The specification's countdown expiry: a disable countdown is active
(`delay > 0`) and the screen-break counter exceeds the delay. -/
def countdownExpired (c : Controller) : Prop :=
  0 < c.m_iDelay ∧ c.m_iDelay < c.m_iScreenBreakElapsedTime

instance (c : Controller) : Decidable (countdownExpired c) := by
  unfold countdownExpired; infer_instance

/-- The controller as the three blocks of the tick find it: after the mode check
of lines 328-335 and the expiry test of lines 340-342. -/
def beforeBlocks (h : Host) (c : Controller) : Controller :=
  (readScreenBreakState (checkRandomMode h (toBool c.m_pParameters.BLYNK_CURSOR_RANDOM_MODE) c)).1

/-- The calls of the screen-break block in closed form, for a non-zero
regularity. -/
def bigEyeEffects (c : Controller) : List Effect :=
  if screenBreakActive c = true ∧ 0 < c.m_iScreenBreakElapsedTime ∧
      c.m_iScreenBreakElapsedTime.tmod c.m_pParameters.SCREEN_BREAK_REGULARITY = 0
  then [Effect.playBigEye c.m_pParameters.SCREEN_BREAK_STRENGTH] else []

/-- Recognises a `playBigEye` call. -/
def Effect.isPlayBigEye : Effect → Bool
  | .playBigEye _ => true
  | _ => false

/-- Recognises a `setStrength` call. -/
def Effect.isSetStrength : Effect → Bool
  | .setStrength _ => true
  | _ => false

/-- Recognises a `setParameter` call. -/
def Effect.isSetParameter : Effect → Bool
  | .setParameter _ => true
  | _ => false

/-- The readings under which the cursor sub-machine runs in regular mode with
regularity `R`: cursor enabled, random mode off, cursor regularity `R`. -/
def RegularCursor (R : Int) (p : Parameters) : Prop :=
  toBool p.BLYNK_CURSOR_ENABLED = true ∧
  toBool p.BLYNK_CURSOR_RANDOM_MODE = false ∧
  p.BLYNK_CURSOR_REGULARITY = R

/-- A period that keeps the schema invariant: its store writes leave non-zero
regularities non-zero and its generator never yields a zero offset (as holds
for offsets drawn from 5 … 50). -/
def KeepsDivisorsNonZero (t : Period) : Prop :=
  (∀ p, (p.BLYNK_CURSOR_REGULARITY ≠ 0 → (t.edit p).BLYNK_CURSOR_REGULARITY ≠ 0) ∧
    (p.SCREEN_BREAK_REGULARITY ≠ 0 → (t.edit p).SCREEN_BREAK_REGULARITY ≠ 0)) ∧
  ∀ k n a b, ∀ x ∈ t.host.randomSequence k n a b, x ≠ 0

/-- The cursor-counter values, as found at the start of the tick, of the ticks of
a run that called `playCursor`. -/
def blinkTimes : Controller → List Period → List Int
  | _, [] => []
  | c, t :: ts =>
    match step c t with
    | .ok r =>
      (if Effect.playCursor ∈ r.2 then [c.m_iBlynkCursorElapsedTime] else []) ++
        blinkTimes r.1 ts
    | .error _ => []

/-! ## Concrete data for the examples -/

/-- Noon, `NO_STRENGTH = 0`, and a generator that returns `count` times the
offset 5. -/
def exampleHost : Host :=
  { NO_STRENGTH := 0
    currentTime := 43200000
    randomSequence := fun _ count _ _ => List.replicate count.toNat 5 }

/-- Like `exampleHost`, with a generator that always returns the batch
5, 12, 30. -/
def batchHost : Host :=
  { NO_STRENGTH := 0
    currentTime := 43200000
    randomSequence := fun _ _ _ _ => [5, 12, 30] }

/-- Cursor on, regular mode every 3 ticks, one random blink per batch, screen
break enabled every 4 ticks at strength 2, blue light on from 18:00 at
strength 3. -/
def exampleParameters : Parameters :=
  { BLYNK_CURSOR_ENABLED := 1
    BLYNK_CURSOR_RANDOM_MODE := 0
    BLYNK_PER_MINUTE_RANDOM := 1
    BLYNK_CURSOR_REGULARITY := 3
    SCREEN_BREAK_STATE := SCREEN_BREAK_ENABLED
    SCREEN_BREAK_REGULARITY := 4
    SCREEN_BREAK_STRENGTH := 2
    BLUE_LIGHT_REDUCER_ENABLED := 1
    BLUE_LIGHT_REDUCER_START_TIME := 64800000
    BLUE_LIGHT_REDUCER_STRENGTH := 3 }

/-- The example parameters with the cursor in random mode. -/
def randomParameters : Parameters :=
  { exampleParameters with BLYNK_CURSOR_RANDOM_MODE := 1 }

/-- The example parameters with the blue-light reducer switched off. -/
def blueOffParameters : Parameters :=
  { exampleParameters with BLUE_LIGHT_REDUCER_ENABLED := 0 }

/-- The example parameters with a cursor regularity that reads as 0. -/
def zeroRegularityParameters : Parameters :=
  { exampleParameters with BLYNK_CURSOR_REGULARITY := 0 }

/-- The example parameters during the one-hour disable countdown. -/
def oneHourParameters : Parameters :=
  { exampleParameters with SCREEN_BREAK_STATE := SCREEN_BREAK_DISABLED_FOR_ONE_HOUR }

/-- A period without store writes, on the example host. -/
def examplePeriod : Period :=
  { edit := id
    host := exampleHost }

/-- A period in which the random-mode flag is switched off in the store. -/
def flipOffPeriod : Period :=
  { edit := fun p => { p with BLYNK_CURSOR_RANDOM_MODE := 0 }
    host := batchHost }

/-- A period without store writes, on the host with the batch 5, 12, 30. -/
def batchPeriod : Period :=
  { edit := id
    host := batchHost }

/-- The controller after start-up without a parameter file, in regular mode. -/
def exampleStart : Controller := startup exampleHost exampleParameters none

/-- The controller after start-up from a parameter file that selects random
mode; the generator of `exampleHost` fills the queue with one offset 5. -/
def randomStart : Controller := startup exampleHost randomParameters (some randomParameters)

/-- The controller after start-up in random mode with the batch 5, 12, 30. -/
def batchStart : Controller := startup batchHost randomParameters (some randomParameters)

/-- The controller after start-up with the blue-light reducer switched off. -/
def blueOffStart : Controller := startup exampleHost blueOffParameters none

/-- The controller `randomStart` ten ticks later: counter 10, queue refilled
with one offset 5 after the blink at counter 5. -/
def tenTicksIn : Controller :=
  { m_pParameters := randomParameters
    m_iBlynkCursorElapsedTime := 10
    m_iScreenBreakElapsedTime := 10
    m_iBlueLightReducerElapsedTime := 10
    m_bBlynkCursorRandomModeOn := true
    m_iDelay := 0
    m_lBlynkCursorSequence := [5] }

/-- The controller `exampleStart` four ticks later. -/
def fourTicksIn : Controller :=
  { m_pParameters := exampleParameters
    m_iBlynkCursorElapsedTime := 4
    m_iScreenBreakElapsedTime := 4
    m_iBlueLightReducerElapsedTime := 4
    m_bBlynkCursorRandomModeOn := false
    m_iDelay := 0
    m_lBlynkCursorSequence := [] }

/-- The controller `exampleStart` seven ticks later. -/
def sevenTicksIn : Controller :=
  { m_pParameters := exampleParameters
    m_iBlynkCursorElapsedTime := 7
    m_iScreenBreakElapsedTime := 7
    m_iBlueLightReducerElapsedTime := 7
    m_bBlynkCursorRandomModeOn := false
    m_iDelay := 0
    m_lBlynkCursorSequence := [] }

/-- The controller 3601 ticks after the one-hour disable command was given on
`exampleStart`: the tick that comes next is the expiry tick. -/
def expiring : Controller :=
  { m_pParameters := oneHourParameters
    m_iBlynkCursorElapsedTime := 3601
    m_iScreenBreakElapsedTime := 3601
    m_iBlueLightReducerElapsedTime := 3601
    m_bBlynkCursorRandomModeOn := false
    m_iDelay := 3600
    m_lBlynkCursorSequence := [] }

/-- A controller one tick into regular mode whose cursor regularity reads as 0. -/
def zeroRegularity : Controller :=
  { m_pParameters := zeroRegularityParameters
    m_iBlynkCursorElapsedTime := 1
    m_iScreenBreakElapsedTime := 1
    m_iBlueLightReducerElapsedTime := 1
    m_bBlynkCursorRandomModeOn := false
    m_iDelay := 0
    m_lBlynkCursorSequence := [] }

/-! ## The blocks of the tick, one by one -/

theorem cppMod_ok {a b : Int} (hb : b ≠ 0) : cppMod a b = .ok (a.tmod b) := by
  simp [cppMod, hb]

theorem cppMod_zero (a : Int) : cppMod a 0 = .error .moduloByZero := by
  simp [cppMod]

theorem blynkCursorOnly_skip (h : Host) (b1 b2 : Bool) (c : Controller)
    (he : c.m_iBlynkCursorElapsedTime ≤ 0) : blynkCursorOnly h b1 b2 c = .ok (c, []) := by
  have : ¬ c.m_iBlynkCursorElapsedTime > 0 := not_lt.mpr he
  simp [blynkCursorOnly, this, pure, Except.pure]

theorem blynkCursorOnly_disabled (h : Host) (b2 : Bool) (c : Controller) :
    blynkCursorOnly h false b2 c = .ok (c, []) := by
  simp [blynkCursorOnly, pure, Except.pure]

theorem blynkCursorOnly_regular (h : Host) (c : Controller)
    (he : 0 < c.m_iBlynkCursorElapsedTime)
    (hR : c.m_pParameters.BLYNK_CURSOR_REGULARITY ≠ 0) :
    blynkCursorOnly h true false c =
      .ok (c, if c.m_iBlynkCursorElapsedTime.tmod c.m_pParameters.BLYNK_CURSOR_REGULARITY = 0
        then [Effect.playCursor] else []) := by
  simp only [blynkCursorOnly, cppMod_ok hR, gt_iff_lt, he, if_true, Bool.not_false]
  split_ifs <;> simp_all [pure, Except.pure, bind, Except.bind]

theorem blynkCursorOnly_regular_zero (h : Host) (c : Controller)
    (he : 0 < c.m_iBlynkCursorElapsedTime)
    (hR : c.m_pParameters.BLYNK_CURSOR_REGULARITY = 0) :
    blynkCursorOnly h true false c = .error .moduloByZero := by
  simp [blynkCursorOnly, hR, cppMod_zero, he,  bind, Except.bind]

theorem blynkCursorOnly_random_nil (h : Host) (c : Controller)
    (hs : c.m_lBlynkCursorSequence = []) :
    blynkCursorOnly h true true c = .ok (c, []) := by
  simp [blynkCursorOnly, hs, pure, Except.pure]

theorem blynkCursorOnly_random_cons (h : Host) (c : Controller) (first : Int) (rest : List Int)
    (he : 0 < c.m_iBlynkCursorElapsedTime)
    (hs : c.m_lBlynkCursorSequence = first :: rest) (hf : first ≠ 0) :
    blynkCursorOnly h true true c =
      .ok (if c.m_iBlynkCursorElapsedTime.tmod first = 0 then
          ({ c with m_lBlynkCursorSequence :=
              if rest.isEmpty then
                h.randomSequence 1 c.m_pParameters.BLYNK_PER_MINUTE_RANDOM 5 50
              else rest }, [Effect.playCursor])
        else (c, [])) := by
  simp only [blynkCursorOnly, hs, cppMod_ok hf, gt_iff_lt, he, if_true]
  split_ifs <;> simp_all [pure, Except.pure, bind, Except.bind]

theorem blynkCursorOnly_random_zero (h : Host) (c : Controller) (rest : List Int)
    (he : 0 < c.m_iBlynkCursorElapsedTime)
    (hs : c.m_lBlynkCursorSequence = 0 :: rest) :
    blynkCursorOnly h true true c = .error .moduloByZero := by
  simp [blynkCursorOnly, hs, cppMod_zero, he, bind, Except.bind]

theorem blynkCursorOnly_total (h : Host) (b1 b2 : Bool) (c : Controller)
    (hR : c.m_pParameters.BLYNK_CURSOR_REGULARITY ≠ 0)
    (hs : 0 < c.m_iBlynkCursorElapsedTime → ∀ x ∈ c.m_lBlynkCursorSequence, x ≠ 0) :
    ∃ l e, blynkCursorOnly h b1 b2 c = .ok ({ c with m_lBlynkCursorSequence := l }, e) := by
  by_cases he : 0 < c.m_iBlynkCursorElapsedTime
  · cases b1
    · exact ⟨_, _, blynkCursorOnly_disabled h b2 c⟩
    · cases b2
      · exact ⟨_, _, blynkCursorOnly_regular h c he hR⟩
      · cases hq : c.m_lBlynkCursorSequence with
        | nil => exact ⟨_, _, blynkCursorOnly_random_nil h c hq⟩
        | cons first rest =>
          have hf : first ≠ 0 := hs he first (by simp [hq])
          rw [blynkCursorOnly_random_cons h c first rest he hq hf]
          by_cases hm : c.m_iBlynkCursorElapsedTime.tmod first = 0
          · rw [if_pos hm]; exact ⟨_, _, rfl⟩
          · rw [if_neg hm]; exact ⟨c.m_lBlynkCursorSequence, _, rfl⟩
  · exact ⟨_, _, blynkCursorOnly_skip h b1 b2 c (not_lt.mp he)⟩

theorem blynkCursorOnly_cases (h : Host) (b1 b2 : Bool) (c : Controller) :
    blynkCursorOnly h b1 b2 c = .error .moduloByZero ∨
    ∃ l e, blynkCursorOnly h b1 b2 c = .ok ({ c with m_lBlynkCursorSequence := l }, e) ∧
      (e = [] ∨ e = [Effect.playCursor]) ∧
      ∀ x ∈ l, x ∈ c.m_lBlynkCursorSequence ∨
        x ∈ h.randomSequence 1 c.m_pParameters.BLYNK_PER_MINUTE_RANDOM 5 50 := by
  have keep : ∀ x ∈ c.m_lBlynkCursorSequence, x ∈ c.m_lBlynkCursorSequence ∨
      x ∈ h.randomSequence 1 c.m_pParameters.BLYNK_PER_MINUTE_RANDOM 5 50 :=
    fun x hx => Or.inl hx
  by_cases he : 0 < c.m_iBlynkCursorElapsedTime
  · cases b1
    · exact Or.inr ⟨c.m_lBlynkCursorSequence, [], blynkCursorOnly_disabled h b2 c, Or.inl rfl, keep⟩
    · cases b2
      · by_cases hR : c.m_pParameters.BLYNK_CURSOR_REGULARITY = 0
        · exact Or.inl (blynkCursorOnly_regular_zero h c he hR)
        · refine Or.inr ⟨c.m_lBlynkCursorSequence, _, blynkCursorOnly_regular h c he hR, ?_, keep⟩
          split_ifs
          · exact Or.inr rfl
          · exact Or.inl rfl
      · cases hq : c.m_lBlynkCursorSequence with
        | nil =>
          refine Or.inr ⟨[], [], ?_, Or.inl rfl, by simp⟩
          rw [blynkCursorOnly_random_nil h c hq, ← hq]
        | cons first rest =>
          by_cases hf : first = 0
          · subst hf
            exact Or.inl (blynkCursorOnly_random_zero h c rest he hq)
          · rw [blynkCursorOnly_random_cons h c first rest he hq hf]
            by_cases hm : c.m_iBlynkCursorElapsedTime.tmod first = 0
            · rw [if_pos hm]
              refine Or.inr ⟨_, _, rfl, Or.inr rfl, ?_⟩
              intro x hx
              by_cases hr : rest.isEmpty = true
              · rw [if_pos hr] at hx; exact Or.inr hx
              · rw [if_neg hr] at hx; exact Or.inl (List.mem_cons_of_mem _ hx)
            · rw [if_neg hm]
              refine Or.inr ⟨first :: rest, [], ?_, Or.inl rfl, fun x hx => Or.inl hx⟩
              rw [← hq]
  · exact Or.inr ⟨c.m_lBlynkCursorSequence, [],
      blynkCursorOnly_skip h b1 b2 c (not_lt.mp he), Or.inl rfl, keep⟩

theorem blynkCursorOnly_effects {h : Host} {b1 b2 : Bool} {c c3 : Controller}
    {e3 : List Effect} (hr : blynkCursorOnly h b1 b2 c = .ok (c3, e3)) :
    e3 = [] ∨ e3 = [Effect.playCursor] := by
  rcases blynkCursorOnly_cases h b1 b2 c with hbad | ⟨l, e, hok, he, -⟩
  · rw [hbad] at hr; exact Except.noConfusion hr
  · rw [hok] at hr
    injection hr with hr
    injection hr with _ h2
    rw [← h2]; exact he

theorem blynkCursorOnly_sequence {h : Host} {b1 b2 : Bool} {c c3 : Controller}
    {e3 : List Effect} (hr : blynkCursorOnly h b1 b2 c = .ok (c3, e3)) :
    ∀ x ∈ c3.m_lBlynkCursorSequence, x ∈ c.m_lBlynkCursorSequence ∨
      x ∈ h.randomSequence 1 c.m_pParameters.BLYNK_PER_MINUTE_RANDOM 5 50 := by
  rcases blynkCursorOnly_cases h b1 b2 c with hbad | ⟨l, e, hok, -, hl⟩
  · rw [hbad] at hr; exact Except.noConfusion hr
  · rw [hok] at hr
    injection hr with hr
    injection hr with h1 _
    rw [← h1]; exact hl


theorem screenBreak_total (b : Bool) (c : Controller)
    (hR : c.m_pParameters.SCREEN_BREAK_REGULARITY ≠ 0) :
    screenBreak b c = .ok
      (if b = true ∧ 0 < c.m_iScreenBreakElapsedTime ∧
          c.m_iScreenBreakElapsedTime.tmod c.m_pParameters.SCREEN_BREAK_REGULARITY = 0
        then [Effect.playBigEye c.m_pParameters.SCREEN_BREAK_STRENGTH] else []) := by
  simp only [screenBreak, cppMod_ok hR]
  by_cases hb : b = true <;> by_cases he : 0 < c.m_iScreenBreakElapsedTime <;>
    by_cases hm : c.m_iScreenBreakElapsedTime.tmod c.m_pParameters.SCREEN_BREAK_REGULARITY = 0 <;>
    simp [hb, he, hm, pure, Except.pure, bind, Except.bind]


theorem screenBreak_ok {b : Bool} {c : Controller} {e4 : List Effect}
    (hr : screenBreak b c = .ok e4) :
    e4 = (if b = true ∧ 0 < c.m_iScreenBreakElapsedTime ∧
          c.m_iScreenBreakElapsedTime.tmod c.m_pParameters.SCREEN_BREAK_REGULARITY = 0
        then [Effect.playBigEye c.m_pParameters.SCREEN_BREAK_STRENGTH] else []) := by
  by_cases hS : c.m_pParameters.SCREEN_BREAK_REGULARITY = 0
  · by_cases hg : b = true ∧ 0 < c.m_iScreenBreakElapsedTime
    · have : screenBreak b c = .error .moduloByZero := by
        simp [screenBreak, hg.1, hg.2, hS, cppMod_zero, bind, Except.bind]
      rw [this] at hr; exact Except.noConfusion hr
    · have h1 : screenBreak b c = .ok [] := by
        have : ¬ ((b && decide (c.m_iScreenBreakElapsedTime > 0)) = true) := by
          simpa using hg
        simp only [screenBreak, this, if_false, pure, Except.pure]
        rfl
      rw [h1] at hr
      injection hr with hr
      rw [← hr, if_neg (fun hh => hg ⟨hh.1, hh.2.1⟩)]
  · rw [screenBreak_total b c hS] at hr
    injection hr with hr
    exact hr.symm

/-! ## The tick as a whole -/


@[simp] theorem checkRandomMode_params (h : Host) (b : Bool) (c : Controller) :
    (checkRandomMode h b c).m_pParameters = c.m_pParameters := by
  unfold checkRandomMode enterBlynkCursorRandomMode enterBlynCursorRegularMode
  split_ifs <;> rfl

@[simp] theorem checkRandomMode_screen (h : Host) (b : Bool) (c : Controller) :
    (checkRandomMode h b c).m_iScreenBreakElapsedTime = c.m_iScreenBreakElapsedTime := by
  unfold checkRandomMode enterBlynkCursorRandomMode enterBlynCursorRegularMode
  split_ifs <;> rfl

@[simp] theorem checkRandomMode_blue (h : Host) (b : Bool) (c : Controller) :
    (checkRandomMode h b c).m_iBlueLightReducerElapsedTime =
      c.m_iBlueLightReducerElapsedTime := by
  unfold checkRandomMode enterBlynkCursorRandomMode enterBlynCursorRegularMode
  split_ifs <;> rfl

@[simp] theorem checkRandomMode_delay (h : Host) (b : Bool) (c : Controller) :
    (checkRandomMode h b c).m_iDelay = c.m_iDelay := by
  unfold checkRandomMode enterBlynkCursorRandomMode enterBlynCursorRegularMode
  split_ifs <;> rfl

theorem readScreenBreakState_eq (c : Controller) :
    readScreenBreakState c =
      (if countdownExpired c then
          { c with m_pParameters := setScreenBreakState SCREEN_BREAK_ENABLED c.m_pParameters }
        else c,
       if countdownExpired c then [Effect.setParameter SCREEN_BREAK_ENABLED] else []) := by
  unfold readScreenBreakState countdownExpired
  split_ifs <;> rfl

theorem timeout_unfold (h : Host) (c : Controller) :
    onApplicationTimerTimeOut h c =
      (blynkCursorOnly h (toBool c.m_pParameters.BLYNK_CURSOR_ENABLED)
          (toBool c.m_pParameters.BLYNK_CURSOR_RANDOM_MODE) (beforeBlocks h c)).bind
        (fun r => (screenBreak (screenBreakActive c) r.1).bind
          (fun e4 => .ok (incrementElapsed r.1,
            (if countdownExpired c then [Effect.setParameter SCREEN_BREAK_ENABLED] else [])
              ++ r.2 ++ e4
              ++ blueLightReducer h (toBool c.m_pParameters.BLUE_LIGHT_REDUCER_ENABLED) r.1))) := by
  unfold onApplicationTimerTimeOut beforeBlocks screenBreakActive
  simp only [readScreenBreakState_eq, bind, pure, Except.pure]
  by_cases hx : countdownExpired c
  · have hx2 : countdownExpired (checkRandomMode h (toBool c.m_pParameters.BLYNK_CURSOR_RANDOM_MODE) c) := by
      simpa [countdownExpired] using hx
    simp [hx, hx2, setScreenBreakState]
  · have hx2 : ¬ countdownExpired (checkRandomMode h (toBool c.m_pParameters.BLYNK_CURSOR_RANDOM_MODE) c) := by
      simpa [countdownExpired] using hx
    simp [hx, hx2]

theorem beforeBlocks_eq (h : Host) (c : Controller) :
    beforeBlocks h c =
      { m_pParameters :=
          if countdownExpired c then setScreenBreakState SCREEN_BREAK_ENABLED c.m_pParameters
          else c.m_pParameters
        m_iBlynkCursorElapsedTime :=
          if c.m_bBlynkCursorRandomModeOn = toBool c.m_pParameters.BLYNK_CURSOR_RANDOM_MODE
          then c.m_iBlynkCursorElapsedTime else 0
        m_iScreenBreakElapsedTime := c.m_iScreenBreakElapsedTime
        m_iBlueLightReducerElapsedTime := c.m_iBlueLightReducerElapsedTime
        m_bBlynkCursorRandomModeOn := toBool c.m_pParameters.BLYNK_CURSOR_RANDOM_MODE
        m_iDelay := c.m_iDelay
        m_lBlynkCursorSequence :=
          if c.m_bBlynkCursorRandomModeOn = false ∧
              toBool c.m_pParameters.BLYNK_CURSOR_RANDOM_MODE = true
          then h.randomSequence 0 c.m_pParameters.BLYNK_PER_MINUTE_RANDOM 5 50
          else c.m_lBlynkCursorSequence } := by
  unfold beforeBlocks
  rw [readScreenBreakState_eq]
  unfold checkRandomMode enterBlynkCursorRandomMode enterBlynCursorRegularMode countdownExpired
  rcases c with ⟨p, e, s, b, f, d, l⟩
  cases f <;> cases hb : toBool p.BLYNK_CURSOR_RANDOM_MODE <;>
    by_cases hx : 0 < d ∧ d < s <;> simp [hb, hx]

theorem blueLightReducer_congr (h : Host) (b : Bool) (c d : Controller)
    (h1 : d.m_iBlueLightReducerElapsedTime = c.m_iBlueLightReducerElapsedTime)
    (h2 : d.m_pParameters.BLUE_LIGHT_REDUCER_START_TIME =
      c.m_pParameters.BLUE_LIGHT_REDUCER_START_TIME)
    (h3 : d.m_pParameters.BLUE_LIGHT_REDUCER_STRENGTH =
      c.m_pParameters.BLUE_LIGHT_REDUCER_STRENGTH) :
    blueLightReducer h b d = blueLightReducer h b c := by
  simp [blueLightReducer, h1, h2, h3]

theorem timeout_of_cursor (h : Host) (c : Controller) (l : List Int) (e3 : List Effect)
    (hcur : blynkCursorOnly h (toBool c.m_pParameters.BLYNK_CURSOR_ENABLED)
        (toBool c.m_pParameters.BLYNK_CURSOR_RANDOM_MODE) (beforeBlocks h c) =
      .ok ({ beforeBlocks h c with m_lBlynkCursorSequence := l }, e3))
    (hS : c.m_pParameters.SCREEN_BREAK_REGULARITY ≠ 0) :
    onApplicationTimerTimeOut h c =
      .ok (incrementElapsed { beforeBlocks h c with m_lBlynkCursorSequence := l },
        (if countdownExpired c then [Effect.setParameter SCREEN_BREAK_ENABLED] else [])
          ++ e3 ++ bigEyeEffects c
          ++ blueLightReducer h (toBool c.m_pParameters.BLUE_LIGHT_REDUCER_ENABLED) c) := by
  have hp : (beforeBlocks h c).m_pParameters.SCREEN_BREAK_REGULARITY =
      c.m_pParameters.SCREEN_BREAK_REGULARITY := by
    rw [beforeBlocks_eq]; simp only; split_ifs <;> rfl
  have hq : (beforeBlocks h c).m_pParameters.SCREEN_BREAK_STRENGTH =
      c.m_pParameters.SCREEN_BREAK_STRENGTH := by
    rw [beforeBlocks_eq]; simp only; split_ifs <;> rfl
  have he : (beforeBlocks h c).m_iScreenBreakElapsedTime = c.m_iScreenBreakElapsedTime := by
    rw [beforeBlocks_eq]
  have hb : blueLightReducer h (toBool c.m_pParameters.BLUE_LIGHT_REDUCER_ENABLED)
      { beforeBlocks h c with m_lBlynkCursorSequence := l } =
      blueLightReducer h (toBool c.m_pParameters.BLUE_LIGHT_REDUCER_ENABLED) c := by
    apply blueLightReducer_congr
    · rw [beforeBlocks_eq]
    · rw [beforeBlocks_eq]; simp only; split_ifs <;> rfl
    · rw [beforeBlocks_eq]; simp only; split_ifs <;> rfl
  rw [timeout_unfold, hcur]
  simp only [Except.bind]
  rw [screenBreak_total _ _ (by simpa [hp] using hS)]
  simp only [Except.bind, hp, hq, bigEyeEffects]
  rw [hb]
  simp only [he]

theorem timeout_total (h : Host) (c : Controller) (hz : NonZeroDivisors c) :
    ∃ l e3,
      blynkCursorOnly h (toBool c.m_pParameters.BLYNK_CURSOR_ENABLED)
        (toBool c.m_pParameters.BLYNK_CURSOR_RANDOM_MODE) (beforeBlocks h c) =
        .ok ({ beforeBlocks h c with m_lBlynkCursorSequence := l }, e3) ∧
      onApplicationTimerTimeOut h c =
        .ok (incrementElapsed { beforeBlocks h c with m_lBlynkCursorSequence := l },
          (if countdownExpired c then [Effect.setParameter SCREEN_BREAK_ENABLED] else [])
            ++ e3 ++ bigEyeEffects c
            ++ blueLightReducer h (toBool c.m_pParameters.BLUE_LIGHT_REDUCER_ENABLED) c) := by
  obtain ⟨hR, hS, hQ⟩ := hz
  obtain ⟨l, e3, hcur⟩ := blynkCursorOnly_total h (toBool c.m_pParameters.BLYNK_CURSOR_ENABLED)
    (toBool c.m_pParameters.BLYNK_CURSOR_RANDOM_MODE) (beforeBlocks h c)
    (by rw [beforeBlocks_eq]; simp only; split_ifs <;> exact hR)
    (by
      rw [beforeBlocks_eq]; simp only
      intro hpos x hx
      by_cases hf : c.m_bBlynkCursorRandomModeOn = toBool c.m_pParameters.BLYNK_CURSOR_RANDOM_MODE
      · have : ¬ (c.m_bBlynkCursorRandomModeOn = false ∧
            toBool c.m_pParameters.BLYNK_CURSOR_RANDOM_MODE = true) := by
          rintro ⟨h1, h2⟩; rw [h1, h2] at hf; exact Bool.noConfusion hf
        rw [if_neg this] at hx
        exact hQ x hx
      · rw [if_neg hf] at hpos; exact absurd hpos (lt_irrefl 0))
  exact ⟨l, e3, hcur, timeout_of_cursor h c l e3 hcur hS⟩

theorem timeout_exists (h : Host) (c : Controller) (hz : NonZeroDivisors c) :
    ∃ r, onApplicationTimerTimeOut h c = .ok r := by
  obtain ⟨l, e3, _, ht⟩ := timeout_total h c hz
  exact ⟨_, ht⟩

theorem timeout_ok_inv {h : Host} {c : Controller} {r : Controller × List Effect}
    (hr : onApplicationTimerTimeOut h c = .ok r) :
    ∃ l e3,
      blynkCursorOnly h (toBool c.m_pParameters.BLYNK_CURSOR_ENABLED)
        (toBool c.m_pParameters.BLYNK_CURSOR_RANDOM_MODE) (beforeBlocks h c) =
        .ok ({ beforeBlocks h c with m_lBlynkCursorSequence := l }, e3) ∧
      r = (incrementElapsed { beforeBlocks h c with m_lBlynkCursorSequence := l },
          (if countdownExpired c then [Effect.setParameter SCREEN_BREAK_ENABLED] else [])
            ++ e3 ++ bigEyeEffects c
            ++ blueLightReducer h (toBool c.m_pParameters.BLUE_LIGHT_REDUCER_ENABLED) c) := by
  rcases blynkCursorOnly_cases h (toBool c.m_pParameters.BLYNK_CURSOR_ENABLED)
    (toBool c.m_pParameters.BLYNK_CURSOR_RANDOM_MODE) (beforeBlocks h c) with hbad | ⟨l, e3, hok, _, _⟩
  · rw [timeout_unfold, hbad] at hr
    exact Except.noConfusion hr
  · refine ⟨l, e3, hok, ?_⟩
    have hp : (beforeBlocks h c).m_pParameters.SCREEN_BREAK_REGULARITY =
        c.m_pParameters.SCREEN_BREAK_REGULARITY := by
      rw [beforeBlocks_eq]; simp only; split_ifs <;> rfl
    have hq : (beforeBlocks h c).m_pParameters.SCREEN_BREAK_STRENGTH =
        c.m_pParameters.SCREEN_BREAK_STRENGTH := by
      rw [beforeBlocks_eq]; simp only; split_ifs <;> rfl
    have he : (beforeBlocks h c).m_iScreenBreakElapsedTime = c.m_iScreenBreakElapsedTime := by
      rw [beforeBlocks_eq]
    have hb : blueLightReducer h (toBool c.m_pParameters.BLUE_LIGHT_REDUCER_ENABLED)
        { beforeBlocks h c with m_lBlynkCursorSequence := l } =
        blueLightReducer h (toBool c.m_pParameters.BLUE_LIGHT_REDUCER_ENABLED) c := by
      apply blueLightReducer_congr
      · rw [beforeBlocks_eq]
      · rw [beforeBlocks_eq]; simp only; split_ifs <;> rfl
      · rw [beforeBlocks_eq]; simp only; split_ifs <;> rfl
    rw [timeout_unfold, hok] at hr
    simp only [Except.bind] at hr
    cases hsb : screenBreak (screenBreakActive c)
        { beforeBlocks h c with m_lBlynkCursorSequence := l } with
    | error f => rw [hsb] at hr; exact Except.noConfusion hr
    | ok e4 =>
      rw [hsb] at hr
      have h4 := screenBreak_ok hsb
      simp only [hp, hq, he] at h4
      injection hr with hr
      rw [← hr, hb, h4]
      rfl


theorem mem_tick_effects_playCursor (h : Host) (c : Controller) (b : Bool) (e3 : List Effect) :
    Effect.playCursor ∈
      (if countdownExpired c then [Effect.setParameter SCREEN_BREAK_ENABLED] else [])
        ++ e3 ++ bigEyeEffects c ++ blueLightReducer h b c ↔ Effect.playCursor ∈ e3 := by
  simp only [bigEyeEffects, blueLightReducer]
  split_ifs <;> simp

theorem filter_tick_effects_bigEye (h : Host) (c : Controller) (b : Bool) (e3 : List Effect)
    (he3 : e3 = [] ∨ e3 = [Effect.playCursor]) :
    ((if countdownExpired c then [Effect.setParameter SCREEN_BREAK_ENABLED] else [])
        ++ e3 ++ bigEyeEffects c ++ blueLightReducer h b c).filter Effect.isPlayBigEye =
      bigEyeEffects c := by
  simp only [bigEyeEffects, blueLightReducer]
  rcases he3 with rfl | rfl <;> split_ifs <;> simp [Effect.isPlayBigEye]

theorem filter_tick_effects_setStrength (h : Host) (c : Controller) (b : Bool)
    (e3 : List Effect) (he3 : e3 = [] ∨ e3 = [Effect.playCursor]) :
    ((if countdownExpired c then [Effect.setParameter SCREEN_BREAK_ENABLED] else [])
        ++ e3 ++ bigEyeEffects c ++ blueLightReducer h b c).filter Effect.isSetStrength =
      blueLightReducer h b c := by
  simp only [bigEyeEffects, blueLightReducer]
  rcases he3 with rfl | rfl <;> split_ifs <;> simp [Effect.isSetStrength]

theorem filter_tick_effects_setParameter (h : Host) (c : Controller) (b : Bool)
    (e3 : List Effect) (he3 : e3 = [] ∨ e3 = [Effect.playCursor]) :
    ((if countdownExpired c then [Effect.setParameter SCREEN_BREAK_ENABLED] else [])
        ++ e3 ++ bigEyeEffects c ++ blueLightReducer h b c).filter Effect.isSetParameter =
      if countdownExpired c then [Effect.setParameter SCREEN_BREAK_ENABLED] else [] := by
  simp only [bigEyeEffects, blueLightReducer]
  rcases he3 with rfl | rfl <;> split_ifs <;> simp [Effect.isSetParameter]

theorem timeout_screen_facts {h : Host} {c : Controller} {r : Controller × List Effect}
    (hr : onApplicationTimerTimeOut h c = .ok r) :
    r.1.m_iScreenBreakElapsedTime = c.m_iScreenBreakElapsedTime + 1 ∧
      r.1.m_iDelay = c.m_iDelay ∧
      r.1.m_pParameters.SCREEN_BREAK_STATE =
        (if 0 < c.m_iDelay ∧ c.m_iScreenBreakElapsedTime > c.m_iDelay
          then SCREEN_BREAK_ENABLED else c.m_pParameters.SCREEN_BREAK_STATE) ∧
      r.2.filter Effect.isSetParameter =
        (if 0 < c.m_iDelay ∧ c.m_iScreenBreakElapsedTime > c.m_iDelay
          then [Effect.setParameter SCREEN_BREAK_ENABLED] else []) := by
  obtain ⟨l, e3, hcur, rfl⟩ := timeout_ok_inv hr
  have he3 := blynkCursorOnly_effects hcur
  refine ⟨?_, ?_, ?_, ?_⟩
  · simp [incrementElapsed, beforeBlocks_eq]
  · simp [incrementElapsed, beforeBlocks_eq]
  · simp only [incrementElapsed, beforeBlocks_eq, countdownExpired]
    split_ifs <;> rfl
  · rw [filter_tick_effects_setParameter h c _ e3 he3]; rfl

theorem timeout_keeps_divisors (h : Host) (c : Controller) (hz : NonZeroDivisors c)
    (hgen : ∀ k n a b, ∀ x ∈ h.randomSequence k n a b, x ≠ 0)
    {r : Controller × List Effect} (hr : onApplicationTimerTimeOut h c = .ok r) :
    NonZeroDivisors r.1 := by
  obtain ⟨l, e3, hcur, rfl⟩ := timeout_ok_inv hr
  have hseq := blynkCursorOnly_sequence hcur
  obtain ⟨hR, hS, hQ⟩ := hz
  refine ⟨?_, ?_, ?_⟩
  · simp only [incrementElapsed, beforeBlocks_eq]
    split_ifs <;> exact hR
  · simp only [incrementElapsed, beforeBlocks_eq]
    split_ifs <;> exact hS
  · intro x hx
    simp only [incrementElapsed] at hx
    rcases hseq x hx with h1 | h1
    · rw [beforeBlocks_eq] at h1
      simp only at h1
      split_ifs at h1
      · exact hgen _ _ _ _ x h1
      · exact hQ x h1
    · exact hgen _ _ _ _ x h1

theorem timeout_regular_total (h : Host) (c : Controller) (R : Int) (hR : 0 < R)
    (hp : RegularCursor R c.m_pParameters)
    (hS : c.m_pParameters.SCREEN_BREAK_REGULARITY ≠ 0) :
    ∃ r, onApplicationTimerTimeOut h c = .ok r := by
  obtain ⟨hen, hrm, hreg⟩ := hp
  have hR0 : (beforeBlocks h c).m_pParameters.BLYNK_CURSOR_REGULARITY ≠ 0 := by
    have hne : c.m_pParameters.BLYNK_CURSOR_REGULARITY ≠ 0 := by
      rw [hreg]; exact ne_of_gt hR
    rw [beforeBlocks_eq]; simp only
    split_ifs <;> exact hne
  by_cases hpos : 0 < (beforeBlocks h c).m_iBlynkCursorElapsedTime
  · have hcur := blynkCursorOnly_regular h (beforeBlocks h c) hpos hR0
    exact ⟨_, timeout_of_cursor h c (beforeBlocks h c).m_lBlynkCursorSequence _
      (by rw [hen, hrm]; exact hcur) hS⟩
  · have hcur := blynkCursorOnly_skip h (toBool c.m_pParameters.BLYNK_CURSOR_ENABLED)
      (toBool c.m_pParameters.BLYNK_CURSOR_RANDOM_MODE) (beforeBlocks h c) (not_lt.mp hpos)
    exact ⟨_, timeout_of_cursor h c (beforeBlocks h c).m_lBlynkCursorSequence [] hcur hS⟩

theorem timeout_regular_facts (h : Host) (c : Controller) (R : Int) (hR : 0 < R)
    (hp : RegularCursor R c.m_pParameters)
    (he : 0 ≤ c.m_iBlynkCursorElapsedTime)
    (hrem : 0 < c.m_iBlynkCursorElapsedTime → c.m_bBlynkCursorRandomModeOn = false)
    {r : Controller × List Effect} (hr : onApplicationTimerTimeOut h c = .ok r) :
    r.1.m_iBlynkCursorElapsedTime = c.m_iBlynkCursorElapsedTime + 1 ∧
      r.1.m_bBlynkCursorRandomModeOn = false ∧
      RegularCursor R r.1.m_pParameters ∧
      r.1.m_pParameters.SCREEN_BREAK_REGULARITY = c.m_pParameters.SCREEN_BREAK_REGULARITY ∧
      (Effect.playCursor ∈ r.2 ↔
        0 < c.m_iBlynkCursorElapsedTime ∧ c.m_iBlynkCursorElapsedTime % R = 0) := by
  obtain ⟨hen, hrm, hreg⟩ := hp
  obtain ⟨l, e3, hcur, rfl⟩ := timeout_ok_inv hr
  have hbp : (beforeBlocks h c).m_pParameters.BLYNK_CURSOR_REGULARITY = R := by
    rw [beforeBlocks_eq]; simp only; split_ifs <;> exact hreg
  have hR0 : (beforeBlocks h c).m_pParameters.BLYNK_CURSOR_REGULARITY ≠ 0 := by
    rw [hbp]; exact ne_of_gt hR
  have hpar : RegularCursor R (beforeBlocks h c).m_pParameters := by
    rw [beforeBlocks_eq]; simp only
    split_ifs <;> exact ⟨hen, hrm, hreg⟩
  have hsbr : (beforeBlocks h c).m_pParameters.SCREEN_BREAK_REGULARITY =
      c.m_pParameters.SCREEN_BREAK_REGULARITY := by
    rw [beforeBlocks_eq]; simp only; split_ifs <;> rfl
  have hbrem : (beforeBlocks h c).m_bBlynkCursorRandomModeOn = false := by
    rw [beforeBlocks_eq]; simp only; exact hrm
  rw [hen, hrm] at hcur
  by_cases hpos : 0 < c.m_iBlynkCursorElapsedTime
  · have hrem' := hrem hpos
    have hbe : (beforeBlocks h c).m_iBlynkCursorElapsedTime = c.m_iBlynkCursorElapsedTime := by
      rw [beforeBlocks_eq]; simp [hrm, hrem']
    rw [blynkCursorOnly_regular h (beforeBlocks h c) (by rw [hbe]; exact hpos) hR0] at hcur
    injection hcur with hcur
    injection hcur with _ he3
    refine ⟨?_, hbrem, hpar, hsbr, ?_⟩
    · simp [incrementElapsed, hbe]
    · rw [mem_tick_effects_playCursor, ← he3, hbe, hbp,
        Int.tmod_eq_emod (le_of_lt hpos) (le_of_lt hR)]
      by_cases hm : c.m_iBlynkCursorElapsedTime % R = 0 <;> simp [hm, hpos]
  · have hz : c.m_iBlynkCursorElapsedTime = 0 := le_antisymm (not_lt.mp hpos) he
    have hbe : (beforeBlocks h c).m_iBlynkCursorElapsedTime = 0 := by
      rw [beforeBlocks_eq]; simp only; split_ifs <;> simp [hz]
    rw [blynkCursorOnly_skip h true false (beforeBlocks h c) (by rw [hbe])] at hcur
    injection hcur with hcur
    injection hcur with _ he3
    refine ⟨?_, hbrem, hpar, hsbr, ?_⟩
    · simp [incrementElapsed, hbe, hz]
    · rw [mem_tick_effects_playCursor, ← he3]; simp [hz]

/-! ## Runs -/

theorem runTicks_preserves (I : Nat → Controller → Prop) (ts : List Period)
    (hstep : ∀ k c t r, t ∈ ts → I k c → step c t = .ok r → I (k + 1) r.1) :
    ∀ k c c', I k c → runTicks c ts = .ok c' → I (k + ts.length) c' := by
  induction ts with
  | nil =>
    intro k c c' hI hrun
    injection hrun with hrun
    rw [← hrun]; exact hI
  | cons t ts ih =>
    intro k c c' hI hrun
    cases hs : step c t with
    | error f =>
      simp only [runTicks, hs] at hrun
      exact Except.noConfusion hrun
    | ok r =>
      simp only [runTicks, hs] at hrun
      have hI1 := hstep k c t r (List.mem_cons_self t ts) hI hs
      have := ih (fun k c u r hu => hstep k c u r (List.mem_cons_of_mem t hu)) (k + 1) r.1 c'
        hI1 hrun
      have hlen : k + (t :: ts).length = k + 1 + ts.length := by
        simp only [List.length_cons]; omega
      rw [hlen]; exact this

theorem runTicks_invariant (I : Nat → Controller → Prop) (ts : List Period)
    (hstep : ∀ k c t, t ∈ ts → I k c → ∃ r, step c t = .ok r ∧ I (k + 1) r.1) :
    ∀ k c, I k c → ∃ c', runTicks c ts = .ok c' ∧ I (k + ts.length) c' := by
  induction ts with
  | nil => intro k c hI; exact ⟨c, rfl, hI⟩
  | cons t ts ih =>
    intro k c hI
    obtain ⟨r, hr, hI1⟩ := hstep k c t (List.mem_cons_self t ts) hI
    obtain ⟨c', hc', hI2⟩ :=
      ih (fun k c u hu => hstep k c u (List.mem_cons_of_mem t hu)) (k + 1) r.1 hI1
    refine ⟨c', ?_, ?_⟩
    · simp only [runTicks, hr]; exact hc'
    · have : k + (t :: ts).length = k + 1 + ts.length := by
        simp only [List.length_cons]; omega
      rw [this]; exact hI2

theorem mem_examplePeriods {u : Period} {n : Nat}
    (hu : u ∈ examplePeriod :: List.replicate n examplePeriod) : u = examplePeriod := by
  rcases List.mem_cons.mp hu with h | h
  · exact h
  · exact (List.mem_replicate.mp h).2

theorem examplePeriod_keeps : KeepsDivisorsNonZero examplePeriod := by
  refine ⟨fun p => ⟨fun hp => hp, fun hp => hp⟩, ?_⟩
  intro k n a b x hx
  have := (List.mem_replicate.mp hx).2
  rw [this]; decide

/-! ## The claims -/

/-- C1. Regular-mode cursor firing.  Start from a controller whose cursor counter
is 0, with the cursor enabled, random mode off and cursor regularity `R > 0`,
and let the store writes between ticks keep these three readings.  Whenever
the `n = ts.length` ticks of the run and the tick after them take place, that
tick finds the cursor counter at `n` and calls `playCursor` exactly when
`0 < n` and `n mod R = 0`: the cursor fires on ticks R, 2R, 3R, … and never on
tick 0.  The ticks do take place as long as the screen-break regularity reads
non-zero throughout. -/
theorem C1_regular_cursor_firing (R : Int) (hR : 0 < R) (c0 : Controller)
    (h0 : c0.m_iBlynkCursorElapsedTime = 0) (hp : RegularCursor R c0.m_pParameters)
    (ts : List Period) (t : Period)
    (hts : ∀ u ∈ t :: ts, ∀ p, RegularCursor R p → RegularCursor R (u.edit p)) :
    (∀ c r, runTicks c0 ts = .ok c → step c t = .ok r →
      c.m_iBlynkCursorElapsedTime = (ts.length : Int) ∧
      (Effect.playCursor ∈ r.2 ↔ 0 < ts.length ∧ (ts.length : Int) % R = 0)) ∧
    (c0.m_pParameters.SCREEN_BREAK_REGULARITY ≠ 0 →
      (∀ u ∈ t :: ts, ∀ p, p.SCREEN_BREAK_REGULARITY ≠ 0 →
        (u.edit p).SCREEN_BREAK_REGULARITY ≠ 0) →
      ∃ c r, runTicks c0 ts = .ok c ∧ step c t = .ok r) := by
  have key : ∀ (k : Nat) (c : Controller) (u : Period) (r : Controller × List Effect),
      u ∈ t :: ts →
      (c.m_iBlynkCursorElapsedTime = (k : Int) ∧
        (0 < k → c.m_bBlynkCursorRandomModeOn = false) ∧
        RegularCursor R c.m_pParameters) →
      step c u = .ok r →
        (r.1.m_iBlynkCursorElapsedTime = ((k + 1 : Nat) : Int) ∧
          (0 < k + 1 → r.1.m_bBlynkCursorRandomModeOn = false) ∧
          RegularCursor R r.1.m_pParameters) ∧
        r.1.m_pParameters.SCREEN_BREAK_REGULARITY =
          (u.edit c.m_pParameters).SCREEN_BREAK_REGULARITY ∧
        (Effect.playCursor ∈ r.2 ↔ 0 < k ∧ (k : Int) % R = 0) := by
    intro k c u r hu ⟨hk, hrem, hpc⟩ hr
    obtain ⟨h1, h2, h3, h4, h5⟩ := timeout_regular_facts u.host
      { c with m_pParameters := u.edit c.m_pParameters } R hR (hts u hu _ hpc)
      (by simp [hk]) (by intro hpos; simp only [hk] at hpos; exact hrem (by exact_mod_cast hpos))
      hr
    refine ⟨⟨?_, fun _ => h2, h3⟩, h4, ?_⟩
    · rw [h1]; simp [hk]
    · rw [h5]; simp [hk]
  have hI0 : c0.m_iBlynkCursorElapsedTime = ((0 : Nat) : Int) ∧
      (0 < 0 → c0.m_bBlynkCursorRandomModeOn = false) ∧
      RegularCursor R c0.m_pParameters :=
    ⟨by simp [h0], fun hlt => absurd hlt (lt_irrefl 0), hp⟩
  constructor
  · intro c r hc hr
    have hI := runTicks_preserves
      (fun k c => c.m_iBlynkCursorElapsedTime = (k : Int) ∧
          (0 < k → c.m_bBlynkCursorRandomModeOn = false) ∧
          RegularCursor R c.m_pParameters) ts
      (fun k c u r hu hI hs => (key k c u r (List.mem_cons_of_mem t hu) hI hs).1)
      0 c0 c hI0 hc
    rw [Nat.zero_add] at hI
    exact ⟨hI.1, (key ts.length c t r (List.mem_cons_self t ts) hI hr).2.2⟩
  · intro hS0 hSs
    have total : ∀ (k : Nat) (c : Controller) (u : Period), u ∈ t :: ts →
        ((c.m_iBlynkCursorElapsedTime = (k : Int) ∧
          (0 < k → c.m_bBlynkCursorRandomModeOn = false) ∧
          RegularCursor R c.m_pParameters) ∧
          c.m_pParameters.SCREEN_BREAK_REGULARITY ≠ 0) →
        ∃ r, step c u = .ok r ∧
          ((r.1.m_iBlynkCursorElapsedTime = ((k + 1 : Nat) : Int) ∧
            (0 < k + 1 → r.1.m_bBlynkCursorRandomModeOn = false) ∧
            RegularCursor R r.1.m_pParameters) ∧
            r.1.m_pParameters.SCREEN_BREAK_REGULARITY ≠ 0) := by
      intro k c u hu ⟨hI, hS⟩
      obtain ⟨r, hr⟩ := timeout_regular_total u.host
        { c with m_pParameters := u.edit c.m_pParameters } R hR (hts u hu _ hI.2.2)
        (hSs u hu _ hS)
      obtain ⟨hI1, h4, _⟩ := key k c u r hu hI hr
      exact ⟨r, hr, hI1, by rw [h4]; exact hSs u hu _ hS⟩
    obtain ⟨c, hc, hI, hS⟩ := runTicks_invariant
      (fun k c => (c.m_iBlynkCursorElapsedTime = (k : Int) ∧
          (0 < k → c.m_bBlynkCursorRandomModeOn = false) ∧
          RegularCursor R c.m_pParameters) ∧
          c.m_pParameters.SCREEN_BREAK_REGULARITY ≠ 0) ts
      (fun k c u hu hI => total k c u (List.mem_cons_of_mem t hu) hI)
      0 c0 ⟨hI0, hS0⟩
    obtain ⟨r, hr, _⟩ := total _ c t (List.mem_cons_self t ts) ⟨hI, hS⟩
    exact ⟨c, r, hc, hr⟩

/-- C1 at `R = 3`: six ticks after start-up the counter is 6 and the seventh
tick blinks. -/
theorem C1_regular_cursor_firing_witness :
    ∃ c r, runTicks exampleStart (List.replicate 6 examplePeriod) = .ok c ∧
      step c examplePeriod = .ok r ∧
      c.m_iBlynkCursorElapsedTime = 6 ∧ Effect.playCursor ∈ r.2 := by
  have hC := C1_regular_cursor_firing 3 (by decide) exampleStart rfl ⟨rfl, rfl, rfl⟩
    (List.replicate 6 examplePeriod) examplePeriod
    (fun u hu p hp => by rw [mem_examplePeriods hu]; exact hp)
  obtain ⟨c, r, hc, hr⟩ := hC.2 (by decide)
    (fun u hu p hp => by rw [mem_examplePeriods hu]; exact hp)
  obtain ⟨h1, h2⟩ := hC.1 c r hc hr
  refine ⟨c, r, hc, hr, ?_, h2.mpr ?_⟩
  · simpa using h1
  · simp

/-- C2 as stated fails.  Ten ticks after a start-up in random mode (the generator
returning the offset 5 each time) the cursor counter is 10 and the queue is
`[5]`; the cursor is enabled, random mode is on and was on at the previous
tick.  The next tick calls `playCursor` although the counter, 10, is not equal
to the front of the queue, 5. -/
theorem C2_random_cursor_counterexample :
    runTicks randomStart (List.replicate 10 examplePeriod) = .ok tenTicksIn ∧
    toBool tenTicksIn.m_pParameters.BLYNK_CURSOR_ENABLED = true ∧
    toBool tenTicksIn.m_pParameters.BLYNK_CURSOR_RANDOM_MODE = true ∧
    tenTicksIn.m_bBlynkCursorRandomModeOn = true ∧
    tenTicksIn.m_lBlynkCursorSequence = [5] ∧
    tenTicksIn.m_iBlynkCursorElapsedTime ≠ 5 ∧
    onApplicationTimerTimeOut exampleHost tenTicksIn =
      .ok ({ tenTicksIn with
              m_iBlynkCursorElapsedTime := 11
              m_iScreenBreakElapsedTime := 11
              m_iBlueLightReducerElapsedTime := 11 },
        [Effect.playCursor, Effect.setStrength 0]) := by
  decide

/-- C2, as amended.  Random-mode cursor firing: on a tick with the cursor enabled,
random mode on and unchanged since the previous tick, cursor counter `> 0` and
a non-empty queue `first :: rest`, `playCursor` is called exactly when the
counter is a multiple of the front value (`elapsed % first == 0` in the
source), not only when it equals it.  When it is called the front value is
popped and a queue that became empty is refilled at once with
`randomSequence(blinks-per-minute, 5, 50)`; when it is not called the queue is
unchanged.  The tick completes when the front value and the screen-break
regularity are non-zero.  Consequently the batch 5, 12, 30 installed at a
(re)initialisation fires at counter values 5, 12 and 30. -/
theorem C2_random_cursor_fires_on_multiples (h : Host) (c : Controller)
    (first : Int) (rest : List Int)
    (hen : toBool c.m_pParameters.BLYNK_CURSOR_ENABLED = true)
    (hrm : toBool c.m_pParameters.BLYNK_CURSOR_RANDOM_MODE = true)
    (hrem : c.m_bBlynkCursorRandomModeOn = true)
    (he : 0 < c.m_iBlynkCursorElapsedTime)
    (hq : c.m_lBlynkCursorSequence = first :: rest) :
    (first ≠ 0 → c.m_pParameters.SCREEN_BREAK_REGULARITY ≠ 0 →
      ∃ r, onApplicationTimerTimeOut h c = .ok r) ∧
    (∀ r, onApplicationTimerTimeOut h c = .ok r →
      (Effect.playCursor ∈ r.2 ↔ c.m_iBlynkCursorElapsedTime.tmod first = 0) ∧
      (c.m_iBlynkCursorElapsedTime.tmod first = 0 →
        r.1.m_lBlynkCursorSequence =
          if rest = [] then
            h.randomSequence 1 c.m_pParameters.BLYNK_PER_MINUTE_RANDOM 5 50
          else rest) ∧
      (c.m_iBlynkCursorElapsedTime.tmod first ≠ 0 →
        r.1.m_lBlynkCursorSequence = first :: rest)) ∧
    blinkTimes batchStart (List.replicate 31 batchPeriod) = [5, 12, 30] := by
  have hbe : (beforeBlocks h c).m_iBlynkCursorElapsedTime = c.m_iBlynkCursorElapsedTime := by
    rw [beforeBlocks_eq]; simp [hrm, hrem]
  have hbq : (beforeBlocks h c).m_lBlynkCursorSequence = first :: rest := by
    rw [beforeBlocks_eq]; simp [hrm, hrem, hq]
  have hbp : (beforeBlocks h c).m_pParameters.BLYNK_PER_MINUTE_RANDOM =
      c.m_pParameters.BLYNK_PER_MINUTE_RANDOM := by
    rw [beforeBlocks_eq]; simp only; split_ifs <;> rfl
  have hbpos : 0 < (beforeBlocks h c).m_iBlynkCursorElapsedTime := by rw [hbe]; exact he
  refine ⟨?_, ?_, by decide⟩
  · intro hf hS
    have hcur := blynkCursorOnly_random_cons h (beforeBlocks h c) first rest hbpos hbq hf
    by_cases hm : (beforeBlocks h c).m_iBlynkCursorElapsedTime.tmod first = 0
    · rw [if_pos hm] at hcur
      exact ⟨_, timeout_of_cursor h c _ _ (by rw [hen, hrm]; exact hcur) hS⟩
    · rw [if_neg hm] at hcur
      exact ⟨_, timeout_of_cursor h c (beforeBlocks h c).m_lBlynkCursorSequence []
        (by rw [hen, hrm]; exact hcur) hS⟩
  · intro r hr
    obtain ⟨l, e3, hcur, rfl⟩ := timeout_ok_inv hr
    rw [hen, hrm] at hcur
    by_cases hf : first = 0
    · subst hf
      rw [blynkCursorOnly_random_zero h (beforeBlocks h c) rest hbpos hbq] at hcur
      exact Except.noConfusion hcur
    · rw [blynkCursorOnly_random_cons h (beforeBlocks h c) first rest hbpos hbq hf, hbe, hbp]
        at hcur
      by_cases hm : c.m_iBlynkCursorElapsedTime.tmod first = 0
      · rw [if_pos hm] at hcur
        injection hcur with hcur
        injection hcur with hc3 he3
        have hl : l = if rest.isEmpty = true then
            h.randomSequence 1 c.m_pParameters.BLYNK_PER_MINUTE_RANDOM 5 50 else rest := by
          have := congrArg Controller.m_lBlynkCursorSequence hc3
          exact this.symm
        refine ⟨?_, ?_, ?_⟩
        · rw [mem_tick_effects_playCursor, ← he3]; simp [hm]
        · intro _; simp [incrementElapsed, hl]
        · intro hn; exact absurd hm hn
      · rw [if_neg hm] at hcur
        injection hcur with hcur
        injection hcur with hc3 he3
        have hl : l = first :: rest := by
          rw [← hbq, hc3]
        refine ⟨?_, ?_, ?_⟩
        · rw [mem_tick_effects_playCursor, ← he3]; simp [hm]
        · intro hn; exact absurd hn hm
        · intro _; simp [incrementElapsed, hl]

/-- C2 (amended) on `tenTicksIn`: counter 10, queue `[5]`; the tick blinks and
refills the queue. -/
theorem C2_random_cursor_fires_on_multiples_witness :
    ∃ r, onApplicationTimerTimeOut exampleHost tenTicksIn = .ok r ∧
      Effect.playCursor ∈ r.2 ∧ r.1.m_lBlynkCursorSequence = [5] := by
  have hC := C2_random_cursor_fires_on_multiples exampleHost tenTicksIn 5 []
    (by decide) (by decide) rfl (by decide) rfl
  obtain ⟨r, hr⟩ := hC.1 (by decide) (by decide)
  obtain ⟨h1, h2, _⟩ := hC.2.1 r hr
  exact ⟨r, hr, h1.mpr (by decide), by rw [h2 (by decide)]; rfl⟩

/-- C3. Screen-break re-enable threshold.  A completed tick calls
`setParameter(SCREEN_BREAK_STATE, ·)` exactly when the delay is `> 0` and the
screen-break counter is strictly greater than the delay, and what it writes is
`SCREEN_BREAK_ENABLED`; otherwise the parameter keeps its value.  (i) With
delay 0 the state after the tick is the state before it, and the delay is
still 0, so no tick ever expires a disabled state.  (ii) After the one-hour
disable command, and with nobody else writing the state, the 3601 ticks that
see the counter at 0 … 3600 end with the counter at 3601 and the state still
`SCREEN_BREAK_DISABLED_FOR_ONE_HOUR`, and the tick that sees 3601 leaves it
`SCREEN_BREAK_ENABLED`.  Ticks complete under the schema invariant, and runs
do when every period keeps it. -/
theorem C3_screen_break_reenable_threshold (h : Host) (c : Controller) :
    (NonZeroDivisors c → ∃ r, onApplicationTimerTimeOut h c = .ok r) ∧
    (∀ r, onApplicationTimerTimeOut h c = .ok r →
      r.2.filter Effect.isSetParameter =
        (if 0 < c.m_iDelay ∧ c.m_iScreenBreakElapsedTime > c.m_iDelay
          then [Effect.setParameter SCREEN_BREAK_ENABLED] else []) ∧
      r.1.m_pParameters.SCREEN_BREAK_STATE =
        (if 0 < c.m_iDelay ∧ c.m_iScreenBreakElapsedTime > c.m_iDelay
          then SCREEN_BREAK_ENABLED else c.m_pParameters.SCREEN_BREAK_STATE) ∧
      (c.m_iDelay = 0 →
        r.1.m_pParameters.SCREEN_BREAK_STATE = c.m_pParameters.SCREEN_BREAK_STATE ∧
        r.1.m_iDelay = 0)) ∧
    (∀ (ts : List Period) (t : Period), ts.length = 3601 →
      (∀ u ∈ t :: ts, ∀ p, (u.edit p).SCREEN_BREAK_STATE = p.SCREEN_BREAK_STATE) →
      (∀ c' r, runTicks (onActionTriggered h .screenBreakDisabledForOneHour c) ts = .ok c' →
        step c' t = .ok r →
        c'.m_iScreenBreakElapsedTime = 3601 ∧
        c'.m_pParameters.SCREEN_BREAK_STATE = SCREEN_BREAK_DISABLED_FOR_ONE_HOUR ∧
        r.1.m_pParameters.SCREEN_BREAK_STATE = SCREEN_BREAK_ENABLED) ∧
      (NonZeroDivisors c → (∀ u ∈ t :: ts, KeepsDivisorsNonZero u) →
        ∃ c' r, runTicks (onActionTriggered h .screenBreakDisabledForOneHour c) ts = .ok c' ∧
          step c' t = .ok r)) := by
  refine ⟨timeout_exists h c, ?_, ?_⟩
  · intro r hr
    obtain ⟨_, h2, h3, h4⟩ := timeout_screen_facts hr
    refine ⟨h4, h3, ?_⟩
    intro hd
    have : ¬ (0 < c.m_iDelay ∧ c.m_iScreenBreakElapsedTime > c.m_iDelay) := by
      rintro ⟨h1, -⟩; rw [hd] at h1; exact lt_irrefl 0 h1
    rw [h3, if_neg this, h2]
    exact ⟨rfl, hd⟩
  · intro ts t hlen hkeep
    have key : ∀ (k : Nat) (d : Controller) (u : Period) (r : Controller × List Effect),
        u ∈ t :: ts →
        (d.m_iScreenBreakElapsedTime = (k : Int) ∧ d.m_iDelay = ONE_HOUR ∧
          (k ≤ 3601 → d.m_pParameters.SCREEN_BREAK_STATE =
            SCREEN_BREAK_DISABLED_FOR_ONE_HOUR)) →
        step d u = .ok r →
          (r.1.m_iScreenBreakElapsedTime = ((k + 1 : Nat) : Int) ∧ r.1.m_iDelay = ONE_HOUR ∧
            (k + 1 ≤ 3601 → r.1.m_pParameters.SCREEN_BREAK_STATE =
              SCREEN_BREAK_DISABLED_FOR_ONE_HOUR)) ∧
          (k = 3601 → r.1.m_pParameters.SCREEN_BREAK_STATE = SCREEN_BREAK_ENABLED) := by
      intro k d u r hu ⟨hk, hd, hst⟩ hr
      obtain ⟨h1, h2, h4, _⟩ := timeout_screen_facts hr
      simp only [hk, hd, ONE_HOUR, hkeep u hu] at h1 h2 h4
      refine ⟨⟨?_, ?_, ?_⟩, ?_⟩
      · rw [h1]; push_cast; ring
      · rw [h2]; rfl
      · intro hle
        have : ¬ ((0 : Int) < 3600 ∧ (k : Int) > 3600) := by
          rintro ⟨-, hlt⟩; omega
        rw [h4, if_neg this, hst (by omega)]
      · intro hk1
        have : ((0 : Int) < 3600 ∧ (k : Int) > 3600) := by
          constructor <;> omega
        rw [h4, if_pos this]
    have hI0 : (onActionTriggered h .screenBreakDisabledForOneHour c).m_iScreenBreakElapsedTime
          = ((0 : Nat) : Int) ∧
        (onActionTriggered h .screenBreakDisabledForOneHour c).m_iDelay = ONE_HOUR ∧
        (0 ≤ 3601 → (onActionTriggered h .screenBreakDisabledForOneHour
          c).m_pParameters.SCREEN_BREAK_STATE = SCREEN_BREAK_DISABLED_FOR_ONE_HOUR) :=
      ⟨rfl, rfl, fun _ => rfl⟩
    constructor
    · intro c' r hc' hr
      have hI := runTicks_preserves
        (fun k d => d.m_iScreenBreakElapsedTime = (k : Int) ∧ d.m_iDelay = ONE_HOUR ∧
          (k ≤ 3601 → d.m_pParameters.SCREEN_BREAK_STATE =
            SCREEN_BREAK_DISABLED_FOR_ONE_HOUR)) ts
        (fun k d u r hu hI hs => (key k d u r (List.mem_cons_of_mem t hu) hI hs).1)
        0 _ c' hI0 hc'
      rw [Nat.zero_add, hlen] at hI
      exact ⟨by simpa using hI.1, hI.2.2 (le_refl _),
        (key 3601 c' t r (List.mem_cons_self t ts) hI hr).2 rfl⟩
    · intro hz hq
      have total : ∀ (k : Nat) (d : Controller) (u : Period), u ∈ t :: ts →
          NonZeroDivisors d → ∃ r, step d u = .ok r ∧ NonZeroDivisors r.1 := by
        intro k d u hu ⟨hR, hS, hQ⟩
        obtain ⟨hed, hgen⟩ := hq u hu
        have hz' : NonZeroDivisors { d with m_pParameters := u.edit d.m_pParameters } :=
          ⟨(hed d.m_pParameters).1 hR, (hed d.m_pParameters).2 hS, hQ⟩
        obtain ⟨r, hr⟩ := timeout_exists u.host _ hz'
        exact ⟨r, hr, timeout_keeps_divisors u.host _ hz' hgen hr⟩
      obtain ⟨c', hc', hz'⟩ := runTicks_invariant (fun _ d => NonZeroDivisors d) ts
        (fun k d u hu hI => total k d u (List.mem_cons_of_mem t hu) hI)
        0 (onActionTriggered h .screenBreakDisabledForOneHour c) hz
      obtain ⟨r, hr, _⟩ := total 0 c' t (List.mem_cons_self t ts) hz'
      exact ⟨c', r, hc', hr⟩

/-- C3 on the example controller: the one-hour command, 3601 quiet ticks, and the
expiry tick. -/
theorem C3_screen_break_reenable_threshold_witness :
    NonZeroDivisors exampleStart ∧
    ∃ c' r,
      runTicks (onActionTriggered exampleHost .screenBreakDisabledForOneHour exampleStart)
        (List.replicate 3601 examplePeriod) = .ok c' ∧
      step c' examplePeriod = .ok r ∧
      c'.m_iScreenBreakElapsedTime = 3601 ∧
      c'.m_pParameters.SCREEN_BREAK_STATE = SCREEN_BREAK_DISABLED_FOR_ONE_HOUR ∧
      r.1.m_pParameters.SCREEN_BREAK_STATE = SCREEN_BREAK_ENABLED := by
  have hz : NonZeroDivisors exampleStart := by decide
  have hC := (C3_screen_break_reenable_threshold exampleHost exampleStart).2.2
    (List.replicate 3601 examplePeriod) examplePeriod (List.length_replicate _ _)
    (fun u hu p => by rw [mem_examplePeriods hu]; rfl)
  obtain ⟨c', r, hc, hr⟩ := hC.2 hz
    (fun u hu => by rw [mem_examplePeriods hu]; exact examplePeriod_keeps)
  exact ⟨hz, c', r, hc, hr, hC.1 c' r hc hr⟩

/-- C4 as stated fails.  On the first tick after start-up the blue-light counter is
0; with the blue-light reducer disabled the tick makes no call at all, so the
dimmer is not commanded `setStrength(NO_STRENGTH)`. -/
theorem C4_blue_light_counterexample :
    toBool blueOffStart.m_pParameters.BLUE_LIGHT_REDUCER_ENABLED = false ∧
    blueOffStart.m_iBlueLightReducerElapsedTime = 0 ∧
    onApplicationTimerTimeOut exampleHost blueOffStart =
      .ok ({ blueOffStart with
              m_iBlynkCursorElapsedTime := 1
              m_iScreenBreakElapsedTime := 1
              m_iBlueLightReducerElapsedTime := 1 }, []) := by
  decide

/-- C4, as amended.  Blue-light command per tick: on every completed tick whose
blue-light counter is `> 0` the dimmer gets exactly one `setStrength` call:
`NO_STRENGTH` when blue-light-enabled is false, and when it is true
`NO_STRENGTH` if the current time of day is strictly before the configured
start time and the configured blue-light strength if it is at or after it.  On
a tick whose blue-light counter is not `> 0` (the first tick after start-up)
no `setStrength` call is made, whatever the flag.  Ticks complete under the
schema invariant. -/
theorem C4_blue_light_command (h : Host) (c : Controller) :
    (NonZeroDivisors c → ∃ r, onApplicationTimerTimeOut h c = .ok r) ∧
    ∀ r, onApplicationTimerTimeOut h c = .ok r →
      r.2.filter Effect.isSetStrength =
        (if 0 < c.m_iBlueLightReducerElapsedTime then
          if toBool c.m_pParameters.BLUE_LIGHT_REDUCER_ENABLED = false then
            [Effect.setStrength h.NO_STRENGTH]
          else if h.currentTime < c.m_pParameters.BLUE_LIGHT_REDUCER_START_TIME then
            [Effect.setStrength h.NO_STRENGTH]
          else [Effect.setStrength c.m_pParameters.BLUE_LIGHT_REDUCER_STRENGTH]
        else []) := by
  refine ⟨timeout_exists h c, ?_⟩
  intro r hr
  obtain ⟨l, e3, hcur, rfl⟩ := timeout_ok_inv hr
  have he3 := blynkCursorOnly_effects hcur
  rw [filter_tick_effects_setStrength h c _ e3 he3]
  simp only [blueLightReducer]
  cases toBool c.m_pParameters.BLUE_LIGHT_REDUCER_ENABLED <;> simp

/-- C4 (amended) four ticks after start-up, at noon with a start time of 18:00:
the one `setStrength` call is the neutral one. -/
theorem C4_blue_light_command_witness :
    NonZeroDivisors fourTicksIn ∧
    ∃ r, onApplicationTimerTimeOut exampleHost fourTicksIn = .ok r ∧
      r.2.filter Effect.isSetStrength = [Effect.setStrength exampleHost.NO_STRENGTH] := by
  have hz : NonZeroDivisors fourTicksIn := by decide
  have hC := C4_blue_light_command exampleHost fourTicksIn
  obtain ⟨r, hr⟩ := hC.1 hz
  exact ⟨hz, r, hr, by rw [hC.2 r hr]; decide⟩

/-- C5 as stated fails.  On the expiry tick 3601 ticks after the one-hour disable
command (delay 3600, screen-break counter 3601) the state goes back to
`SCREEN_BREAK_ENABLED`, but the screen-break counter is not reset: the tick
ends with the counter at 3602, not at 1. -/
theorem C5_expiry_counterexample :
    (0 < expiring.m_iDelay ∧ expiring.m_iScreenBreakElapsedTime > expiring.m_iDelay) ∧
    onApplicationTimerTimeOut exampleHost expiring =
      .ok ({ expiring with
              m_pParameters := exampleParameters
              m_iBlynkCursorElapsedTime := 3602
              m_iScreenBreakElapsedTime := 3602
              m_iBlueLightReducerElapsedTime := 3602 },
        [Effect.setParameter SCREEN_BREAK_ENABLED, Effect.setStrength 0]) := by
  decide

/-- C5, as amended.  Countdown expiry: on a completed tick where a disable countdown
is active (delay `> 0`) and the screen-break counter exceeds the delay, the
tick sets screen-break-state back to `SCREEN_BREAK_ENABLED` and does not reset
the screen-break counter, which like on any other tick ends one greater than
before.  Ticks complete under the schema invariant. -/
theorem C5_expiry_keeps_counting (h : Host) (c : Controller)
    (hx : 0 < c.m_iDelay ∧ c.m_iScreenBreakElapsedTime > c.m_iDelay) :
    (NonZeroDivisors c → ∃ r, onApplicationTimerTimeOut h c = .ok r) ∧
    ∀ r, onApplicationTimerTimeOut h c = .ok r →
      r.1.m_pParameters.SCREEN_BREAK_STATE = SCREEN_BREAK_ENABLED ∧
      r.1.m_iScreenBreakElapsedTime = c.m_iScreenBreakElapsedTime + 1 := by
  refine ⟨timeout_exists h c, ?_⟩
  intro r hr
  obtain ⟨h1, _, h3, _⟩ := timeout_screen_facts hr
  exact ⟨by rw [h3, if_pos hx], h1⟩

/-- C5 (amended) on the expiry tick of the one-hour countdown. -/
theorem C5_expiry_keeps_counting_witness :
    NonZeroDivisors expiring ∧
    ∃ r, onApplicationTimerTimeOut exampleHost expiring = .ok r ∧
      r.1.m_pParameters.SCREEN_BREAK_STATE = SCREEN_BREAK_ENABLED ∧
      r.1.m_iScreenBreakElapsedTime = 3602 := by
  have hz : NonZeroDivisors expiring := by decide
  have hC := C5_expiry_keeps_counting exampleHost expiring (by decide)
  obtain ⟨r, hr⟩ := hC.1 hz
  obtain ⟨h1, h2⟩ := hC.2 r hr
  exact ⟨hz, r, hr, h1, by rw [h2]; rfl⟩

/-- C6. Unconditional counter increment.  Every completed tick, whatever the
controller and the parameters, leaves the blue-light counter exactly 1 greater
than before, leaves the screen-break counter exactly 1 greater than before
when the tick is not a countdown-expiry tick, leaves the cursor counter
exactly 1 greater than before when the random-mode flag equals the remembered
one, and ends with the cursor counter at 1 when the flag differs from the
remembered one.  Ticks complete under the schema invariant. -/
theorem C6_counters_increment (h : Host) (c : Controller) :
    (NonZeroDivisors c → ∃ r, onApplicationTimerTimeOut h c = .ok r) ∧
    ∀ r, onApplicationTimerTimeOut h c = .ok r →
      r.1.m_iBlueLightReducerElapsedTime = c.m_iBlueLightReducerElapsedTime + 1 ∧
      (¬ (0 < c.m_iDelay ∧ c.m_iScreenBreakElapsedTime > c.m_iDelay) →
        r.1.m_iScreenBreakElapsedTime = c.m_iScreenBreakElapsedTime + 1) ∧
      (c.m_bBlynkCursorRandomModeOn = toBool c.m_pParameters.BLYNK_CURSOR_RANDOM_MODE →
        r.1.m_iBlynkCursorElapsedTime = c.m_iBlynkCursorElapsedTime + 1) ∧
      (c.m_bBlynkCursorRandomModeOn ≠ toBool c.m_pParameters.BLYNK_CURSOR_RANDOM_MODE →
        r.1.m_iBlynkCursorElapsedTime = 1) := by
  refine ⟨timeout_exists h c, ?_⟩
  intro r hr
  obtain ⟨l, e3, _, rfl⟩ := timeout_ok_inv hr
  refine ⟨?_, ?_, ?_, ?_⟩
  · simp [incrementElapsed, beforeBlocks_eq]
  · intro _; simp [incrementElapsed, beforeBlocks_eq]
  · intro hf; simp [incrementElapsed, beforeBlocks_eq, hf]
  · intro hf; simp [incrementElapsed, beforeBlocks_eq, hf]

/-- C6 on the tick that follows `fourTicksIn`: all three counters go from 4 to 5. -/
theorem C6_counters_increment_witness :
    NonZeroDivisors fourTicksIn ∧
    ∃ r, onApplicationTimerTimeOut exampleHost fourTicksIn = .ok r ∧
      r.1.m_iBlueLightReducerElapsedTime = 5 ∧
      r.1.m_iScreenBreakElapsedTime = 5 ∧
      r.1.m_iBlynkCursorElapsedTime = 5 := by
  have hz : NonZeroDivisors fourTicksIn := by decide
  have hC := C6_counters_increment exampleHost fourTicksIn
  obtain ⟨r, hr⟩ := hC.1 hz
  obtain ⟨h1, h2, h3, _⟩ := hC.2 r hr
  exact ⟨hz, r, hr, by rw [h1]; rfl, by rw [h2 (by decide)]; rfl, by rw [h3 (by decide)]; rfl⟩

/-- C7 as stated fails.  Seven ticks after start-up in regular mode the cursor
counter is 7; opening the preferences dialog and closing it without any change
(so the random-mode flag still equals the one seen on the previous tick) resets
the cursor counter to 0. -/
theorem C7_preferences_counterexample :
    runTicks exampleStart (List.replicate 7 examplePeriod) = .ok sevenTicksIn ∧
    sevenTicksIn.m_bBlynkCursorRandomModeOn =
      toBool (id sevenTicksIn.m_pParameters).BLYNK_CURSOR_RANDOM_MODE ∧
    sevenTicksIn.m_iBlynkCursorElapsedTime = 7 ∧
    onActionTriggered exampleHost (.preferences id) sevenTicksIn =
      { sevenTicksIn with m_iBlynkCursorElapsedTime := 0 } := by
  decide

/-- C7, as amended.  Closing the preferences dialog re-initialises the cursor
sub-machine whenever the cursor is enabled, whether or not the random-mode
flag changed: the cursor counter is reset to 0, and the queue is regenerated
with `randomSequence(blinks-per-minute, 5, 50)` when random mode is on and
kept when it is off.  With the cursor disabled the close changes neither the
cursor counter nor the queue. -/
theorem C7_preferences_close_reinitialises (h : Host) (edit : Parameters → Parameters)
    (c : Controller) :
    (onActionTriggered h (.preferences edit) c).m_iBlynkCursorElapsedTime =
        (if toBool (edit c.m_pParameters).BLYNK_CURSOR_ENABLED = true then 0
          else c.m_iBlynkCursorElapsedTime) ∧
    (onActionTriggered h (.preferences edit) c).m_lBlynkCursorSequence =
        (if toBool (edit c.m_pParameters).BLYNK_CURSOR_ENABLED = true ∧
            toBool (edit c.m_pParameters).BLYNK_CURSOR_RANDOM_MODE = true then
          h.randomSequence 0 (edit c.m_pParameters).BLYNK_PER_MINUTE_RANDOM 5 50
        else c.m_lBlynkCursorSequence) := by
  simp only [onActionTriggered, enterBlynkCursorRandomMode, enterBlynCursorRegularMode]
  cases toBool (edit c.m_pParameters).BLYNK_CURSOR_ENABLED <;>
    cases toBool (edit c.m_pParameters).BLYNK_CURSOR_RANDOM_MODE <;> simp

/-- C8. Screen-break firing rule.  On every completed tick the `playBigEye` calls
are: exactly one, with the configured screen-break strength, when the screen
break is active, the screen-break counter is `> 0` and the counter modulo the
screen-break regularity is 0, where active means that the state at the start
of the tick is `SCREEN_BREAK_ENABLED` and the counter is at least the delay;
and none otherwise.  In particular a tick whose state is one of the disabled
variants makes no `playBigEye` call.  Ticks complete under the schema
invariant. -/
theorem C8_screen_break_firing (h : Host) (c : Controller) :
    (NonZeroDivisors c → ∃ r, onApplicationTimerTimeOut h c = .ok r) ∧
    ∀ r, onApplicationTimerTimeOut h c = .ok r →
      r.2.filter Effect.isPlayBigEye =
        (if (c.m_pParameters.SCREEN_BREAK_STATE = SCREEN_BREAK_ENABLED ∧
              c.m_iScreenBreakElapsedTime ≥ c.m_iDelay) ∧
            0 < c.m_iScreenBreakElapsedTime ∧
            c.m_iScreenBreakElapsedTime.tmod c.m_pParameters.SCREEN_BREAK_REGULARITY = 0
          then [Effect.playBigEye c.m_pParameters.SCREEN_BREAK_STRENGTH] else []) ∧
      (c.m_pParameters.SCREEN_BREAK_STATE ≠ SCREEN_BREAK_ENABLED →
        ∀ s, Effect.playBigEye s ∉ r.2) := by
  refine ⟨timeout_exists h c, ?_⟩
  intro r hr
  obtain ⟨l, e3, hcur, rfl⟩ := timeout_ok_inv hr
  have he3 := blynkCursorOnly_effects hcur
  have hfil := filter_tick_effects_bigEye h c
    (toBool c.m_pParameters.BLUE_LIGHT_REDUCER_ENABLED) e3 he3
  refine ⟨?_, ?_⟩
  · rw [hfil]
    simp [bigEyeEffects, screenBreakActive]
  · intro hne s hs
    have hmem : Effect.playBigEye s ∈ bigEyeEffects c := by
      rw [← hfil]
      exact List.mem_filter.mpr ⟨hs, rfl⟩
    simp [bigEyeEffects, screenBreakActive, hne] at hmem

/-- C8 on `fourTicksIn`: screen break enabled, counter 4, regularity 4, strength 2. -/
theorem C8_screen_break_firing_witness :
    NonZeroDivisors fourTicksIn ∧
    ∃ r, onApplicationTimerTimeOut exampleHost fourTicksIn = .ok r ∧
      r.2.filter Effect.isPlayBigEye = [Effect.playBigEye 2] := by
  have hz : NonZeroDivisors fourTicksIn := by decide
  have hC := C8_screen_break_firing exampleHost fourTicksIn
  obtain ⟨r, hr⟩ := hC.1 hz
  exact ⟨hz, r, hr, by rw [(hC.2 r hr).1]; decide⟩

/-- C9 as stated fails.  After a start-up in random mode with the batch 5, 12, 30
the user switches random mode off; the next tick re-initialises the cursor in
regular mode, and the queue after that tick is still `[5, 12, 30]`, not
empty. -/
theorem C9_leaving_random_mode_counterexample :
    batchStart.m_bBlynkCursorRandomModeOn = true ∧
    batchStart.m_lBlynkCursorSequence = [5, 12, 30] ∧
    toBool (flipOffPeriod.edit batchStart.m_pParameters).BLYNK_CURSOR_RANDOM_MODE = false ∧
    step batchStart flipOffPeriod =
      .ok ({ batchStart with
              m_pParameters := exampleParameters
              m_iBlynkCursorElapsedTime := 1
              m_iScreenBreakElapsedTime := 1
              m_iBlueLightReducerElapsedTime := 1
              m_bBlynkCursorRandomModeOn := false }, []) ∧
    batchStart.m_lBlynkCursorSequence ≠ [] := by
  decide

/-- C9, as amended.  Leaving random mode: on a completed tick where the random-mode
flag has changed from on (the remembered value) to off, the cursor sub-machine
is re-initialised in regular mode (the cursor counter restarts and ends the
tick at 1, no `playCursor` call is made, the remembered flag is off) and the
pending blink-offset queue is kept as it was.  The tick completes when the
screen-break regularity is non-zero. -/
theorem C9_leaving_random_mode_keeps_queue (h : Host) (c : Controller)
    (hrem : c.m_bBlynkCursorRandomModeOn = true)
    (hrm : toBool c.m_pParameters.BLYNK_CURSOR_RANDOM_MODE = false) :
    (c.m_pParameters.SCREEN_BREAK_REGULARITY ≠ 0 →
      ∃ r, onApplicationTimerTimeOut h c = .ok r) ∧
    ∀ r, onApplicationTimerTimeOut h c = .ok r →
      r.1.m_lBlynkCursorSequence = c.m_lBlynkCursorSequence ∧
      r.1.m_iBlynkCursorElapsedTime = 1 ∧
      r.1.m_bBlynkCursorRandomModeOn = false ∧
      Effect.playCursor ∉ r.2 := by
  have hbe : (beforeBlocks h c).m_iBlynkCursorElapsedTime ≤ 0 := by
    rw [beforeBlocks_eq]; simp [hrm, hrem]
  have hseq : (beforeBlocks h c).m_lBlynkCursorSequence = c.m_lBlynkCursorSequence := by
    rw [beforeBlocks_eq]; simp [hrm, hrem]
  have hskip := blynkCursorOnly_skip h (toBool c.m_pParameters.BLYNK_CURSOR_ENABLED)
    (toBool c.m_pParameters.BLYNK_CURSOR_RANDOM_MODE) (beforeBlocks h c) hbe
  constructor
  · intro hS
    exact ⟨_, timeout_of_cursor h c (beforeBlocks h c).m_lBlynkCursorSequence [] hskip hS⟩
  · intro r hr
    obtain ⟨l, e3, hcur, rfl⟩ := timeout_ok_inv hr
    rw [hskip] at hcur
    injection hcur with hcur
    injection hcur with hc3 he3
    have hl : l = c.m_lBlynkCursorSequence := by
      rw [← hseq, hc3]
    refine ⟨?_, ?_, ?_, ?_⟩
    · simp [incrementElapsed, hl]
    · simp [incrementElapsed, beforeBlocks_eq, hrm, hrem]
    · simp [incrementElapsed, beforeBlocks_eq, hrm]
    · rw [mem_tick_effects_playCursor, ← he3]; simp

/-- C9 (amended) on the controller of the counterexample, after the store write. -/
theorem C9_leaving_random_mode_keeps_queue_witness :
    ∃ r, onApplicationTimerTimeOut batchHost
        { batchStart with m_pParameters := exampleParameters } = .ok r ∧
      r.1.m_lBlynkCursorSequence = [5, 12, 30] ∧ r.1.m_iBlynkCursorElapsedTime = 1 := by
  have hC := C9_leaving_random_mode_keeps_queue batchHost
    { batchStart with m_pParameters := exampleParameters } rfl (by decide)
  obtain ⟨r, hr⟩ := hC.1 (by decide)
  obtain ⟨h1, h2, _⟩ := hC.2 r hr
  exact ⟨r, hr, by rw [h1]; rfl, h2⟩

/-- C10. No division by zero under the schema invariant.  When cursor regularity and
screen-break regularity read as non-zero and no value in the blink-offset
queue is zero, none of the three remainders of the tick has divisor zero: the
tick completes.  The source has no guard of its own: with the cursor enabled,
the sub-machine in regular mode (flag off now and at the previous tick),
cursor counter `> 0` and cursor regularity reading as 0, the tick runs into a
remainder by zero. -/
theorem C10_tick_total_iff_divisors_nonzero :
    (∀ (h : Host) (c : Controller), NonZeroDivisors c →
      ∃ r, onApplicationTimerTimeOut h c = .ok r) ∧
    (∀ (h : Host) (c : Controller),
      toBool c.m_pParameters.BLYNK_CURSOR_ENABLED = true →
      toBool c.m_pParameters.BLYNK_CURSOR_RANDOM_MODE = false →
      c.m_bBlynkCursorRandomModeOn = false →
      0 < c.m_iBlynkCursorElapsedTime →
      c.m_pParameters.BLYNK_CURSOR_REGULARITY = 0 →
      onApplicationTimerTimeOut h c = .error .moduloByZero) := by
  constructor
  · intro h c hz
    exact timeout_exists h c hz
  · intro h c hen hrm hrem he hR
    have hbe : 0 < (beforeBlocks h c).m_iBlynkCursorElapsedTime := by
      rw [beforeBlocks_eq]; simp [hrm, hrem, he]
    have hbR : (beforeBlocks h c).m_pParameters.BLYNK_CURSOR_REGULARITY = 0 := by
      rw [beforeBlocks_eq]; simp only; split_ifs <;> exact hR
    rw [timeout_unfold, hen, hrm, blynkCursorOnly_regular_zero h _ hbe hbR]
    rfl

/-- C10 on the example data: the tick after start-up completes, and the tick on a
controller whose cursor regularity reads as 0 does not. -/
theorem C10_tick_total_iff_divisors_nonzero_witness :
    NonZeroDivisors exampleStart ∧
    (∃ r, onApplicationTimerTimeOut exampleHost exampleStart = .ok r) ∧
    ¬ NonZeroDivisors zeroRegularity ∧
    onApplicationTimerTimeOut exampleHost zeroRegularity = .error .moduloByZero := by
  have hz : NonZeroDivisors exampleStart := by decide
  exact ⟨hz, C10_tick_total_iff_divisors_nonzero.1 exampleHost exampleStart hz, by decide,
    C10_tick_total_iff_divisors_nonzero.2 exampleHost zeroRegularity (by decide) (by decide)
      rfl (by decide) rfl⟩

end Blynk
